import Mathlib

/-!
Verification of the resilient extraction-and-navigation engine of the
Instagram reels scraper (csda-finalproject-litf).

The JavaScript source is shallowly embedded:

* JSON values (the payloads flowing through the network interception
  pipeline) are modelled by the inductive type `Json`.  JSON numbers are
  modelled as integers (all numbers appearing in the verified claims are
  integers).  JavaScript `undefined` (absent property) is conflated with
  `Json.null`: both are falsy and the code under verification only ever
  distinguishes them through truthiness.
* JavaScript truthiness is `Json.truthy`; `a || b` chains become `Json.or`.
* Methods that can throw inside a `try`-block that their caller catches are
  modelled in `Except Unit`.
* String lowercasing (`jsLower`) is ASCII, which agrees with JavaScript
  `toLowerCase` on every string used in the claims.
-/

/-- JSON values as handled by the scraper's extraction pipeline. -/
inductive Json where
  | null : Json
  | bool : Bool → Json
  | num : Int → Json
  | str : String → Json
  | arr : List Json → Json
  | obj : List (String × Json) → Json
  deriving Repr

mutual

/-- Decidable equality for `Json` (hand-written: the nested occurrence of
`List Json` defeats automatic deriving). -/
def Json.decEq : (a b : Json) → Decidable (a = b)
  | .null, .null => isTrue rfl
  | .bool a, .bool b =>
    if h : a = b then isTrue (by rw [h])
    else isFalse (by intro hh; injection hh; contradiction)
  | .num a, .num b =>
    if h : a = b then isTrue (by rw [h])
    else isFalse (by intro hh; injection hh; contradiction)
  | .str a, .str b =>
    if h : a = b then isTrue (by rw [h])
    else isFalse (by intro hh; injection hh; contradiction)
  | .arr xs, .arr ys =>
    match Json.decEqList xs ys with
    | isTrue h => isTrue (by rw [h])
    | isFalse h => isFalse (by intro hh; injection hh; contradiction)
  | .obj xs, .obj ys =>
    match Json.decEqFields xs ys with
    | isTrue h => isTrue (by rw [h])
    | isFalse h => isFalse (by intro hh; injection hh; contradiction)
  | .null, .bool _ => isFalse nofun
  | .null, .num _ => isFalse nofun
  | .null, .str _ => isFalse nofun
  | .null, .arr _ => isFalse nofun
  | .null, .obj _ => isFalse nofun
  | .bool _, .null => isFalse nofun
  | .bool _, .num _ => isFalse nofun
  | .bool _, .str _ => isFalse nofun
  | .bool _, .arr _ => isFalse nofun
  | .bool _, .obj _ => isFalse nofun
  | .num _, .null => isFalse nofun
  | .num _, .bool _ => isFalse nofun
  | .num _, .str _ => isFalse nofun
  | .num _, .arr _ => isFalse nofun
  | .num _, .obj _ => isFalse nofun
  | .str _, .null => isFalse nofun
  | .str _, .bool _ => isFalse nofun
  | .str _, .num _ => isFalse nofun
  | .str _, .arr _ => isFalse nofun
  | .str _, .obj _ => isFalse nofun
  | .arr _, .null => isFalse nofun
  | .arr _, .bool _ => isFalse nofun
  | .arr _, .num _ => isFalse nofun
  | .arr _, .str _ => isFalse nofun
  | .arr _, .obj _ => isFalse nofun
  | .obj _, .null => isFalse nofun
  | .obj _, .bool _ => isFalse nofun
  | .obj _, .num _ => isFalse nofun
  | .obj _, .str _ => isFalse nofun
  | .obj _, .arr _ => isFalse nofun

/-- Decidable equality for lists of `Json`. -/
def Json.decEqList : (xs ys : List Json) → Decidable (xs = ys)
  | [], [] => isTrue rfl
  | [], _ :: _ => isFalse nofun
  | _ :: _, [] => isFalse nofun
  | x :: xs, y :: ys =>
    match Json.decEq x y with
    | isFalse h => isFalse (by intro hh; injection hh; contradiction)
    | isTrue h1 =>
      match Json.decEqList xs ys with
      | isTrue h2 => isTrue (by rw [h1, h2])
      | isFalse h => isFalse (by intro hh; injection hh; contradiction)

/-- Decidable equality for `Json` object field lists. -/
def Json.decEqFields : (xs ys : List (String × Json)) → Decidable (xs = ys)
  | [], [] => isTrue rfl
  | [], _ :: _ => isFalse nofun
  | _ :: _, [] => isFalse nofun
  | (k, v) :: xs, (l, w) :: ys =>
    if hk : k = l then
      match Json.decEq v w with
      | isFalse h =>
        isFalse (by intro hh; injection hh with h1 h2; exact h (congrArg Prod.snd h1))
      | isTrue hv =>
        match Json.decEqFields xs ys with
        | isTrue hs => isTrue (by rw [hk, hv, hs])
        | isFalse h => isFalse (by intro hh; injection hh; contradiction)
    else
      isFalse (by intro hh; injection hh with h1 h2; exact hk (congrArg Prod.fst h1))

end

instance : DecidableEq Json := Json.decEq

/-- ASCII lowercasing (JavaScript `toLowerCase` restricted to ASCII, which
covers every string appearing in the claims). -/
def jsLower (s : String) : String := String.mk (s.data.map Char.toLower)

/-- JavaScript `String.prototype.startsWith` (over the character list, so
that concrete instances evaluate in the kernel). -/
def jsStartsWith (s patt : String) : Bool := patt.data.isPrefixOf s.data

/-- Source `.replace(/^#/, '')`: strip one leading `#` if present. -/
def stripLeadingHash (s : String) : String :=
  match s.data with
  | '#' :: rest => String.mk rest
  | _ => s

namespace Json

/-- JavaScript truthiness of a value (`undefined` is represented by `null`). -/
def truthy : Json → Bool
  | .null => false
  | .bool b => b
  | .num n => n ≠ 0
  | .str s => s ≠ ""
  | .arr _ => true
  | .obj _ => true

/-- Property access `o[k]`, JavaScript style: `undefined` (here `null`) when
the key is absent or the receiver is not an object. -/
def get : Json → String → Json
  | .obj fields, k => (fields.lookup k).getD .null
  | _, _ => .null

/-- Array index access `a?.[i]`: `undefined` (here `null`) when out of range
or the receiver is not an array. -/
def idx : Json → Nat → Json
  | .arr xs, i => xs.getD i .null
  | _, _ => .null

/-- JavaScript `a || b`. -/
def or (a b : Json) : Json := if a.truthy then a else b

/-- Source `typeof v === 'string' ? v.toLowerCase() : throw` — JavaScript
`toLowerCase` invoked on a non-string value raises a `TypeError`. -/
def jsToLowerCase : Json → Except Unit String
  | .str s => .ok (jsLower s)
  | _ => .error ()

end Json

/-- One `{hashtag, hashtag_id, post_count, position, extraction_method}`
metadata entry produced by `HashtagExtractor`. -/
structure TagMeta where
  hashtag : String
  hashtag_id : Json
  post_count : Json
  position : Nat
  extraction_method : String
  deriving Repr, DecidableEq

/-- The reel record produced by `GraphQLExtractor.extractReelDataFromItem`
(and by the DOM fallback).  Field values keep their JavaScript shape: a field
the source fills from the payload is an arbitrary `Json` value with `null`
standing for both JS `null` and `undefined`. -/
structure ReelData where
  post_id : Json
  author_username : Json
  caption : Json
  hashtags : List String
  hashtag_metadata : List TagMeta
  likes_count : Json
  comments_count : Json
  view_count : Json
  media_type : String
  video_url : Json
  thumbnail_url : Json
  created_at : Json
  deriving Repr, DecidableEq

namespace HashtagExtractor

/-- Source `tag.toLowerCase().replace(/^#/, '')` applied to a string already known
to be a string: lowercase, then strip one leading `#`. -/
def normalizeTag (s : String) : String :=
  stripLeadingHash (jsLower s)

/-- Insertion-ordered set `add` (JavaScript `Set.prototype.add` on strings). -/
def addUniq (xs : List String) (x : String) : List String :=
  if x ∈ xs then xs else xs ++ [x]

/-- Source `typeof tag === 'string' ? tag : (tag.name || tag.hashtag)` -/
def hashtagNameOf (tag : Json) : Json :=
  match tag with
  | .str s => .str s
  | _ => (tag.get "name").or (tag.get "hashtag")

/-- State threaded through `HashtagExtractor.extractFromGraphQL`:
the insertion-ordered hashtag set and the metadata list. -/
structure TagAcc where
  hashtags : List String
  metadata : List TagMeta
  deriving Repr, DecidableEq

/-- Method 1 of `extractFromGraphQL`: one `edge_media_to_hashtag` edge.
Metadata is pushed unconditionally (no dedup in this method). -/
def stepEdge (acc : TagAcc) (iEdge : Nat × Json) : Except Unit TagAcc := do
  let node := iEdge.2.get "node"
  if node.truthy then
    let hashtagName := (node.get "name").or (node.get "hashtag")
    if hashtagName.truthy then
      let low ← hashtagName.jsToLowerCase
      let normalized := stripLeadingHash low
      pure { hashtags := addUniq acc.hashtags normalized,
             metadata := acc.metadata ++
               [{ hashtag := normalized,
                  hashtag_id := (node.get "id").or .null,
                  post_count := ((node.get "edge_hashtag_to_media").get "count").or
                    ((node.get "media_count").or .null),
                  position := iEdge.1 + 1,
                  extraction_method := "graphql_edge" }] }
    else pure acc
  else pure acc

/-- Methods 2 and 3 of `extractFromGraphQL`: one entry of a bare hashtag
array; metadata is pushed only when no entry for the name exists yet. -/
def stepArrayTag (method : String) (acc : TagAcc) (iTag : Nat × Json) :
    Except Unit TagAcc := do
  let tag := iTag.2
  let hashtagName := hashtagNameOf tag
  if hashtagName.truthy then
    let low ← hashtagName.jsToLowerCase
    let normalized := stripLeadingHash low
    let md :=
      if (acc.metadata.find? (fun m => m.hashtag = normalized)).isSome then
        acc.metadata
      else
        acc.metadata ++
          [{ hashtag := normalized,
             hashtag_id := (match tag with
               | .obj _ => (tag.get "id")
               | _ => .null),
             post_count := (match tag with
               | .obj _ => if method = "graphql_array" then tag.get "media_count" else .null
               | _ => .null),
             position := iTag.1 + 1,
             extraction_method := method }]
    pure { hashtags := addUniq acc.hashtags normalized, metadata := md }
  else pure acc

/-- The array a field holds, when it is an array (`Array.isArray` guard). -/
def asArray (j : Json) : List Json :=
  match j with
  | .arr xs => xs
  | _ => []

/-- Source `HashtagExtractor.extractFromGraphQL(items)`: union of three extraction
methods (hashtag edges, bare hashtag arrays, caption-object hashtags),
deduplicated with an insertion-ordered set.  A truthy non-string hashtag name
makes JavaScript `toLowerCase` throw; the `Except` propagates that to the
caller (`extractReelDataFromItem`), which catches it. -/
def extractFromGraphQL (items : Json) : Except Unit TagAcc := do
  let acc : TagAcc := { hashtags := [], metadata := [] }
  let acc ←
    (asArray ((items.get "edge_media_to_hashtag").get "edges")).enum.foldlM
      stepEdge acc
  let acc ← (asArray (items.get "hashtags")).enum.foldlM
      (stepArrayTag "graphql_array") acc
  let acc ← (asArray ((items.get "caption").get "hashtags")).enum.foldlM
      (stepArrayTag "caption_object") acc
  pure acc

/-- One tag's contribution in `HashtagExtractor.merge`: skip an
already-seen normalized tag, else append it, with metadata carried over
from the source when it has an entry, else a default `merged` entry. -/
def mergeStepTag (source : TagAcc) (acc : TagAcc) (tag : String) : TagAcc :=
  let normalized := normalizeTag tag
  if normalized ∈ acc.hashtags then acc
  else
    { hashtags := acc.hashtags ++ [normalized],
      metadata := acc.metadata ++
        [match source.metadata.find? (fun m => m.hashtag = normalized) with
         | some m => m
         | none =>
           { hashtag := normalized,
             hashtag_id := .null,
             post_count := .null,
             position := acc.metadata.length + 1,
             extraction_method := "merged" }] }

/-- One source's contribution in `HashtagExtractor.merge`. -/
def mergeStepSource (acc : TagAcc) (source : TagAcc) : TagAcc :=
  source.hashtags.foldl (mergeStepTag source) acc

/-- Source `HashtagExtractor.merge(sources)`: first-seen union of the
sources' hashtag lists (each tag normalized). -/
def merge (sources : List TagAcc) : TagAcc :=
  sources.foldl mergeStepSource { hashtags := [], metadata := [] }

end HashtagExtractor

namespace GraphQLExtractor

/-- Source `GraphQLExtractor.extractReelDataFromItem(items)`: field extraction via
ordered `||`-chains of alternative key names, with the whole body inside a
`try` that returns `null` on any exception.  Returns `none` (JS `null`) when
the extracted `post_id` is falsy or when hashtag extraction throws. -/
def extractReelDataFromItem (items : Json) : Option ReelData :=
  match HashtagExtractor.extractFromGraphQL items with
  | .error _ => none
  | .ok tagResult =>
    let reelData : ReelData := {
      post_id := ((items.get "shortcode").or ((items.get "code").or .null)),
      author_username := (((items.get "owner").get "username").or
        (((items.get "user").get "username").or .null)),
      caption := (((((items.get "edge_media_to_caption").get "edges").idx 0).get
          "node").get "text").or
        (((items.get "caption").get "text").or
          ((items.get "caption").or .null)),
      hashtags := tagResult.hashtags,
      hashtag_metadata := tagResult.metadata,
      likes_count := (((items.get "edge_media_preview_like").get "count").or
        ((items.get "like_count").or
          (((items.get "edge_liked_by").get "count").or (.num 0)))),
      comments_count := (((items.get "edge_media_to_comment").get "count").or
        ((items.get "comment_count").or (.num 0))),
      view_count := ((items.get "video_view_count").or
        ((items.get "video_play_count").or
          ((items.get "view_count").or
            ((items.get "play_count").or (.num 0))))),
      media_type := "reel",
      video_url := ((((items.get "video_versions").idx 0).get "url").or
        ((items.get "video_url").or .null)),
      thumbnail_url := ((items.get "thumbnail_src").or
        ((items.get "display_url").or
          (((((items.get "image_versions2").get "candidates").idx 0).get "url").or
            ((((items.get "display_resources").idx 0).get "src").or .null)))),
      created_at := ((items.get "taken_at_timestamp").or
        ((items.get "taken_at").or .null)) }
    if reelData.post_id.truthy then some reelData else none

/-- Source `GraphQLExtractor.extractReelFromGraphQLItem(items)`. -/
def extractReelFromGraphQLItem (items : Json) : Option ReelData :=
  if items.truthy then extractReelDataFromItem items else none

/-- Source `GraphQLExtractor.extractReelFromGraphQL(data)`: the ordered list of six
top-level shape matchers, stopping at the first that matches. -/
def extractReelFromGraphQL (data : Json) : Option ReelData :=
  let d := data.get "data"
  let items : Json :=
    if (d.get "xdt_shortcode_media").truthy then
      d.get "xdt_shortcode_media"
    else if (d.get "shortcode_media").truthy then
      d.get "shortcode_media"
    else if ((d.get "xdt_api__v1__clips__home__connection_v2").get "edges").truthy then
      let edges := HashtagExtractor.asArray
        ((d.get "xdt_api__v1__clips__home__connection_v2").get "edges")
      match edges with
      | e :: _ => if ((e.get "node").get "media").truthy then (e.get "node").get "media"
                  else .null
      | [] => .null
    else if ((d.get "xdt_api__v1__clips__user__connection_v2").get "edges").truthy then
      let edges := HashtagExtractor.asArray
        ((d.get "xdt_api__v1__clips__user__connection_v2").get "edges")
      match edges with
      | e :: _ => if ((e.get "node").get "media").truthy then (e.get "node").get "media"
                  else .null
      | [] => .null
    else
      match data.get "items" with
      | .arr xs => xs.getD 0 .null
      | _ =>
        match d.get "items" with
        | .arr ys => ys.getD 0 .null
        | _ => .null
  if items.truthy then extractReelDataFromItem items else none

end GraphQLExtractor

/-- Source `ReelCollector`: the session dedup cache.  `collectedReels` models the
JavaScript `Map` keyed by `post_id` as an insertion-ordered association
list; `networkReels` is the arrival-order array. -/
structure ReelCollector where
  collectedReels : List (Json × ReelData)
  networkReels : List ReelData
  deriving Repr, DecidableEq

namespace ReelCollector

/-- The freshly constructed (or cleared) collector. -/
def empty : ReelCollector := { collectedReels := [], networkReels := [] }

/-- Source `Map.prototype.has` on the insertion-ordered association list. -/
def mapHas (m : List (Json × ReelData)) (k : Json) : Bool :=
  (m.lookup k).isSome

/-- Source `ReelCollector.addReel(reelData)` together with its JavaScript return
value.  The source function only ever executes a bare `return;` or falls off
the end, so the returned JS value is `undefined` on every path; `none`
models `undefined` and `some b` would model a boolean.  The guard discards a
falsy argument or a falsy `post_id`; an absent entry is inserted into the
map and pushed onto `networkReels`; an existing entry is left untouched. -/
def addReelFull (c : ReelCollector) (reelData : Option ReelData) :
    ReelCollector × Option Bool :=
  match reelData with
  | none => (c, none)
  | some r =>
    if ¬ r.post_id.truthy then (c, none)
    else if mapHas c.collectedReels r.post_id then (c, none)
    else ({ collectedReels := c.collectedReels ++ [(r.post_id, r)],
            networkReels := c.networkReels ++ [r] }, none)

/-- Source `ReelCollector.addReel(reelData)` (the collector after the call). -/
def addReel (c : ReelCollector) (reelData : Option ReelData) : ReelCollector :=
  (c.addReelFull reelData).1

/-- Source `ReelCollector.getReel(postId)`. -/
def getReel (c : ReelCollector) (postId : Json) : Option ReelData :=
  c.collectedReels.lookup postId

/-- Source `ReelCollector.hasReel(postId)`. -/
def hasReel (c : ReelCollector) (postId : Json) : Bool :=
  mapHas c.collectedReels postId

/-- Source `ReelCollector.getAllReels()`. -/
def getAllReels (c : ReelCollector) : List ReelData :=
  c.collectedReels.map (·.2)

/-- Source `ReelCollector.getNetworkReels()`. -/
def getNetworkReels (c : ReelCollector) : List ReelData :=
  c.networkReels

/-- Source `ReelCollector.clear()`. -/
def clear (_ : ReelCollector) : ReelCollector := empty

/-- Source `ReelCollector.size()`. -/
def size (c : ReelCollector) : Nat := c.collectedReels.length

end ReelCollector

namespace GraphQLHandler

/-- Check from `GraphQLHandler.findMediaObjects`: does this value look like a
media object (`__typename === 'XDTMediaDict' || code || shortcode || pk`) of
clip kind (`product_type === 'clips' || media_type === 2`)? -/
def isMediaObject (j : Json) : Bool :=
  (j.get "__typename" = Json.str "XDTMediaDict" || (j.get "code").truthy ||
    (j.get "shortcode").truthy || (j.get "pk").truthy) &&
  (j.get "product_type" = Json.str "clips" || j.get "media_type" = Json.num 2)

/-- Values iterated by the `for (const key in obj)` loop of
`findMediaObjects` (field values of an object, elements of an array). -/
def childValues : Json → List Json
  | .obj fields => fields.map (·.2)
  | .arr xs => xs
  | _ => []

/-- Source `GraphQLHandler.findMediaObjects(obj, depth)`: bounded-depth
recursive search for media objects.  The source guards `depth > 5` at entry
and recurses at `depth + 1`; here the remaining depth is the fuel, so the
top-level call (source depth 0) uses fuel 6.  Non-objects return `[]`
(`typeof obj !== 'object'`); elements of array-valued fields are recursed
directly (the array layer does not consume a level), mirroring the source's
`Array.isArray` branch. -/
def findMediaObjects : Nat → Json → List Json
  | 0, _ => []
  | fuel + 1, j =>
    match j with
    | .obj _ | .arr _ =>
      (if isMediaObject j then [j] else []) ++
      (childValues j).flatMap (fun v =>
        match v with
        | .arr xs => xs.flatMap (fun item => findMediaObjects fuel item)
        | .obj _ => findMediaObjects fuel v
        | _ => [])
    | _ => []

/-- Per-item tail shared by all three branches of
`processGraphQLResponse`: extract, then `if (reelData && reelData.post_id)`
add to the collector.  (The `storage.saveRawPacket` side effect goes to the
external storage collaborator and does not touch the collector.) -/
def collectItem (c : ReelCollector) (media : Json) : ReelCollector :=
  match GraphQLExtractor.extractReelFromGraphQLItem media with
  | some reelData =>
    if reelData.post_id.truthy then c.addReel (some reelData) else c
  | none => c

/-- Source `GraphQLHandler.processGraphQLResponse(parsedData, url, method)`
acting on the reel collector.  Bails out unless `parsedData` and
`parsedData.data` are truthy; then tries, in order: the clips-home feed
connection, single-reel shortcode media, and the bounded deep search.
A non-array `edges` value would make the source's `for...of` throw before
any record is added (caught by the caller), which coincides with iterating
the empty list here. -/
def processGraphQLResponse (c : ReelCollector) (parsedData : Json) : ReelCollector :=
  if !parsedData.truthy || !(parsedData.get "data").truthy then c
  else
    let d := parsedData.get "data"
    if (d.get "xdt_api__v1__clips__home__connection_v2").truthy then
      let edges := HashtagExtractor.asArray
        ((d.get "xdt_api__v1__clips__home__connection_v2").get "edges")
      edges.foldl (fun c edge =>
        let media := (edge.get "node").get "media"
        if media.truthy then collectItem c media else c) c
    else if (d.get "xdt_shortcode_media").truthy || (d.get "shortcode_media").truthy then
      match GraphQLExtractor.extractReelFromGraphQL parsedData with
      | some reelData =>
        if reelData.post_id.truthy then c.addReel (some reelData) else c
      | none => c
    else
      match d with
      | .obj _ | .arr _ => (findMediaObjects 6 d).foldl collectItem c
      | _ => c

end GraphQLHandler

/-! ### The captured-body processing of `NetworkInterceptor.setup`

The `sendDataToNode` callback receives a captured response body as a string,
strips the `"for (;;);"` anti-hijacking marker if the body starts with it
(`replace(/^for \(;;\);\s*/, '')`), parses the remainder with `JSON.parse`
and hands the result to `processGraphQLResponse`.  All of this sits inside
`try` blocks, so a parse failure adds nothing and surfaces no error.

`JSON.parse` is modelled by an executable recursive-descent parser over a
JSON fragment sufficient for the payloads at issue: numbers are integers,
string escapes cover the non-`\u` JSON escapes.  JSON whitespace (space,
tab, newline, carriage return) is distinguished from the larger ECMAScript
`\s` class used by the stripping regex. -/

/-- The four whitespace characters `JSON.parse` skips. -/
def isJsonWhitespace (c : Char) : Bool :=
  c = ' ' || c = '\t' || c = '\n' || c = '\r'

/-- The ECMAScript `\s` character class (as matched by the `\s*` in the
stripping regex): whitespace, line terminators, NBSP, BOM and the Unicode
space separators. -/
def isJsWhitespace (c : Char) : Bool :=
  c.toNat ∈ ([9, 10, 11, 12, 13, 32, 0xa0, 0x1680,
    0x2000, 0x2001, 0x2002, 0x2003, 0x2004, 0x2005, 0x2006, 0x2007,
    0x2008, 0x2009, 0x200a, 0x2028, 0x2029, 0x202f, 0x205f, 0x3000,
    0xfeff] : List Nat)

namespace JsonParse

/-- Consume an expected literal (`null`, `true`, `false`). -/
def dropLit : List Char → List Char → Option (List Char)
  | [], cs => some cs
  | l :: ls, c :: cs => if l = c then dropLit ls cs else none
  | _ :: _, [] => none

/-- Parse the remainder of a JSON string literal (the opening quote already
consumed), handling the single-character escapes. -/
def parseStringChars : Nat → List Char → List Char → Option (String × List Char)
  | 0, _, _ => none
  | _ + 1, [], _ => none
  | fuel + 1, c :: rest, acc =>
    if c = '"' then some (String.mk acc.reverse, rest)
    else if c = '\\' then
      match rest with
      | [] => none
      | e :: rest2 =>
        let esc : Option Char :=
          if e = '"' then some '"'
          else if e = '\\' then some '\\'
          else if e = '/' then some '/'
          else if e = 'n' then some '\n'
          else if e = 't' then some '\t'
          else if e = 'r' then some '\r'
          else if e = 'b' then some (Char.ofNat 8)
          else if e = 'f' then some (Char.ofNat 12)
          else none
        match esc with
        | some ec => parseStringChars fuel rest2 (ec :: acc)
        | none => none
    else if c.toNat < 32 then none
    else parseStringChars fuel rest (c :: acc)

/-- Parse a JSON integer (optional minus sign, no leading zeros). -/
def parseIntNum (cs : List Char) : Option (Json × List Char) :=
  let (neg, cs2) := match cs with
    | '-' :: rest => (true, rest)
    | _ => (false, cs)
  let digits := cs2.takeWhile (fun c => '0' ≤ c ∧ c ≤ '9')
  let rest := cs2.dropWhile (fun c => '0' ≤ c ∧ c ≤ '9')
  if digits.isEmpty then none
  else if digits.length > 1 && digits.headD '0' = '0' then none
  else
    let n : Nat := digits.foldl (fun a c => a * 10 + (c.toNat - 48)) 0
    some (Json.num (if neg then -(n : Int) else (n : Int)), rest)

mutual

/-- Parse one JSON value, skipping leading JSON whitespace. -/
def parseValue : Nat → List Char → Option (Json × List Char)
  | 0, _ => none
  | fuel + 1, cs =>
    let cs := cs.dropWhile isJsonWhitespace
    match cs with
    | [] => none
    | c :: rest =>
      if c = 'n' then (dropLit ['u', 'l', 'l'] rest).map (fun r => (Json.null, r))
      else if c = 't' then (dropLit ['r', 'u', 'e'] rest).map (fun r => (Json.bool true, r))
      else if c = 'f' then
        (dropLit ['a', 'l', 's', 'e'] rest).map (fun r => (Json.bool false, r))
      else if c = '"' then
        (parseStringChars (rest.length + 1) rest []).map (fun p => (Json.str p.1, p.2))
      else if c = '[' then
        let rest2 := rest.dropWhile isJsonWhitespace
        match rest2 with
        | ']' :: rest3 => some (Json.arr [], rest3)
        | _ => parseElements fuel rest2 []
      else if c = '\x7b' then
        let rest2 := rest.dropWhile isJsonWhitespace
        match rest2 with
        | '\x7d' :: rest3 => some (Json.obj [], rest3)
        | _ => parseMembers fuel rest2 []
      else parseIntNum cs

/-- Parse the elements of a non-empty JSON array (opening bracket consumed). -/
def parseElements : Nat → List Char → List Json → Option (Json × List Char)
  | 0, _, _ => none
  | fuel + 1, cs, acc =>
    match parseValue fuel cs with
    | none => none
    | some (v, rest) =>
      let rest2 := rest.dropWhile isJsonWhitespace
      match rest2 with
      | ']' :: rest3 => some (Json.arr (acc ++ [v]), rest3)
      | ',' :: rest3 => parseElements fuel rest3 (acc ++ [v])
      | _ => none

/-- Parse the members of a non-empty JSON object (opening brace consumed). -/
def parseMembers : Nat → List Char → List (String × Json) →
    Option (Json × List Char)
  | 0, _, _ => none
  | fuel + 1, cs, acc =>
    let cs := cs.dropWhile isJsonWhitespace
    match cs with
    | '"' :: rest =>
      match parseStringChars (rest.length + 1) rest [] with
      | none => none
      | some (key, rest2) =>
        let rest3 := rest2.dropWhile isJsonWhitespace
        match rest3 with
        | ':' :: rest4 =>
          match parseValue fuel rest4 with
          | none => none
          | some (v, rest5) =>
            let rest6 := rest5.dropWhile isJsonWhitespace
            match rest6 with
            | '\x7d' :: rest7 => some (Json.obj (acc ++ [(key, v)]), rest7)
            | ',' :: rest7 => parseMembers fuel rest7 (acc ++ [(key, v)])
            | _ => none
        | _ => none
    | _ => none

end

end JsonParse

/-- Model of `JSON.parse`: parse one value and require only trailing JSON
whitespace after it.  The result is a function of the input with its leading
JSON whitespace removed (as with `JSON.parse` itself). -/
def parseJson (s : String) : Option Json :=
  let l := s.data.dropWhile isJsonWhitespace
  match JsonParse.parseValue (2 * l.length + 2) l with
  | some (j, rest) => if rest.dropWhile isJsonWhitespace = [] then some j else none
  | none => none

/-- JavaScript `String.prototype.includes`. -/
def strIncludes (hay needle : String) : Bool :=
  go needle.data hay.data
where
  /-- Does `needle` occur in `l`? -/
  go (needle : List Char) : List Char → Bool
    | [] => needle.isEmpty
    | c :: rest => needle.isPrefixOf (c :: rest) || go needle rest

/-- The anti-hijacking marker stripped by `sendDataToNode`. -/
def hijackMarker : String := "for (;;);"

/-- Source `cleanData.replace(/^for \(;;\);\s*/, '')` guarded by
`startsWith`: drop the nine marker characters and any following `\s`
whitespace. -/
def stripHijack (s : String) : String :=
  if jsStartsWith s hijackMarker then
    String.mk ((s.data.drop 9).dropWhile isJsWhitespace)
  else s

namespace NetworkInterceptor

/-- The GraphQL branch of the `sendDataToNode` callback installed by
`NetworkInterceptor.setup`, acting on the reel collector: URL/method filter,
marker stripping, `JSON.parse` (a failure is caught and yields no records),
the `!parsedData || !parsedData.data` gate, then
`GraphQLHandler.processGraphQLResponse`. -/
def sendDataToNode (c : ReelCollector) (url method data : String) : ReelCollector :=
  if strIncludes url "/graphql/query" && method = "POST" then
    match parseJson (stripHijack data) with
    | none => c
    | some parsedData =>
      if !parsedData.truthy || !(parsedData.get "data").truthy then c
      else GraphQLHandler.processGraphQLResponse c parsedData
  else c

end NetworkInterceptor

namespace ReelNavigator

/-- Outcome of one whole navigation strategy as observed by the loop in
`navigateToNextReel`: its verification succeeded (the strategy returned
true), it returned false, or it threw (and the loop's `catch` swallows
the exception). -/
inductive StrategyOutcome where
  | succeeds : StrategyOutcome
  | fails : StrategyOutcome
  | throws : StrategyOutcome
  deriving Repr, DecidableEq, Fintype

/-- The five navigation strategies of `navigateToNextReel`, in source
order: ArrowDown key, ArrowRight key, Next-button click (itself trying an
ordered list of selectors), swipe gesture on the video element, and the
PageDown key. -/
inductive Strategy where
  | arrowDown : Strategy
  | arrowRight : Strategy
  | buttonClick : Strategy
  | swipe : Strategy
  | pageDown : Strategy
  deriving Repr, DecidableEq, Fintype

/-- The `strategies` array of `navigateToNextReel`, in source order. -/
def strategies : List Strategy :=
  [.arrowDown, .arrowRight, .buttonClick, .swipe, .pageDown]

/-- The `for (const strategy of strategies)` loop of `navigateToNextReel`:
run each strategy inside `try`/`catch`, return true at the first success, a
throw is logged (`Navigation strategy failed`) and treated like a false
return.  Also returns the list of strategies actually attempted. -/
def runStrategies (outcome : Strategy → StrategyOutcome) :
    List Strategy → Bool × List Strategy
  | [] => (false, [])
  | s :: rest =>
    match outcome s with
    | .succeeds => (true, [s])
    | _ =>
      let r := runStrategies outcome rest
      (r.1, s :: r.2)

/-- Source `ReelNavigator.navigateToNextReel`: returns false at once
(attempting no strategy) when the current reel id cannot be read from the
URL, else runs the five strategies in order. -/
def navigateToNextReel (currentReelId : Option String)
    (outcome : Strategy → StrategyOutcome) : Bool × List Strategy :=
  match currentReelId with
  | none => (false, [])
  | some _ => runStrategies outcome strategies

/-- Environment of one `verifyNavigation` call, indexed by poll number
(poll `k` happens at `waitedTime = 300 * k`): what `getCurrentReelId`
returns at each poll (`none` models `null`) and whether a
`video[src], video[srcset]` element is found at each poll. -/
structure PollEnv where
  idAt : Nat → Option String
  videoAt : Nat → Bool

/-- Did poll `k` observe a different, truthy reel id
(`newReelId && newReelId !== currentReelId`)? -/
def idChanged (env : PollEnv) (currentReelId : String) (k : Nat) : Bool :=
  match env.idAt k with
  | some newReelId => newReelId ≠ "" && newReelId ≠ currentReelId
  | none => false

/-- Did poll `k` satisfy the heuristic video acceptance
(`videoEl && waitedTime > 2000` and `waitedTime > maxWaitTime * 0.7`)?
The float product `maxWaitTime * 0.7` is modelled by the exact comparison
`10 * waitedTime > 7 * maxWaitTime`; for the bounds the source uses (8000
and 6000) the IEEE double product is exactly `5600.0` resp. `4200.0`, so
the two comparisons agree there. -/
def videoAccepted (env : PollEnv) (maxWaitTime : Nat) (k : Nat) : Bool :=
  env.videoAt k && decide (300 * k > 2000) && decide (10 * (300 * k) > 7 * maxWaitTime)

/-- The polling loop of `verifyNavigation`: while `waitedTime <
maxWaitTime`, wait one `checkInterval` (300 ms, counted as exactly 300),
then return true if the reel id changed, else return true if the video
heuristic fires, else keep polling; fall out of the loop with false.  The
fuel only exists to express the loop in Lean: one unit is consumed per
iteration, so any fuel above `maxWaitTime / 300 + 1` is inert. -/
def verifyFrom (env : PollEnv) (currentReelId : String) (maxWaitTime : Nat) :
    Nat → Nat → Bool
  | 0, _ => false
  | fuel + 1, waitedTime =>
    if waitedTime < maxWaitTime then
      let w := waitedTime + 300
      if idChanged env currentReelId (w / 300) then true
      else if videoAccepted env maxWaitTime (w / 300) then true
      else verifyFrom env currentReelId maxWaitTime fuel w
    else false

/-- Source `ReelNavigator.verifyNavigation(currentReelId, maxWaitTime)`
(the source defaults `maxWaitTime` to 8000; the PageDown strategy passes
6000). -/
def verifyNavigation (env : PollEnv) (currentReelId : String)
    (maxWaitTime : Nat) : Bool :=
  verifyFrom env currentReelId maxWaitTime (maxWaitTime + 1) 0

end ReelNavigator

namespace InstagramReelsScraper

/-- The backoff delay computed in `scrapeReelsFeed` after a failed advance
(`baseDelay * 2^(consecutiveNavigationFailures - 1)` capped at `maxDelay`,
before the random jitter is added): base 2000 ms, cap 15000 ms. -/
def backoffDelay (consecutiveNavigationFailures : Nat) : Nat :=
  min (2000 * 2 ^ (consecutiveNavigationFailures - 1)) 15000

/-- Resolution of the current reel's record in `scrapeReelsFeed`: a network
cache hit is used wholesale; only when the cache misses is the DOM
extraction result used. -/
def resolveReelData (networkRecord domRecord : Option ReelData) :
    Option ReelData :=
  match networkRecord with
  | some r => some r
  | none => domRecord

/-- Outcome of the `navigateToNextReel` call of one loop iteration,
and — when it fails — whether the single post-backoff retry would
succeed. -/
inductive NavOutcome where
  | success : NavOutcome
  | failure : Bool → NavOutcome
  deriving Repr, DecidableEq

/-- Environment of one iteration of the `while` loop of
`scrapeReelsFeed`: either the iteration body throws (caught by the
iteration's `catch`), or the page is no longer a reel page (with the
recovery navigation's outcome), or a normal iteration with the current
reel id, the network-cache and DOM resolution candidates, the outcomes of
the opportunistic drain of cached-but-unsaved network reels (record and
`savePost` result), the `savePost` outcome for the current record, and the
navigation outcome. -/
inductive IterEvent where
  | throwsMidIteration : IterEvent
  | notOnReelPage : Bool → IterEvent
  | onReel : Option String → Option ReelData → Option ReelData →
      List (ReelData × Bool) → Bool → NavOutcome → IterEvent
  deriving Repr, DecidableEq

/-- The mutable state of `scrapeReelsFeed`'s loop: the session's `reels`
array, `reelsCollected`, `navigationFailures` (the counter the spec calls
`cumulative_failures`), `consecutiveNavigationFailures`, and whether the
loop was left by a `break`. -/
structure ScrapeState where
  reels : List ReelData
  reelsCollected : Nat
  navigationFailures : Nat
  consecutiveNavigationFailures : Nat
  ended : Bool
  deriving Repr, DecidableEq

/-- The loop state at entry (`reels = []`, all counters 0). -/
def initialState : ScrapeState :=
  { reels := [], reelsCollected := 0, navigationFailures := 0,
    consecutiveNavigationFailures := 0, ended := false }

/-- The `while` guard: `reelsCollected < reelsToCollect &&
navigationFailures < maxFailures (5) && consecutiveNavigationFailures <
maxConsecutiveNavigationFailures (3)`, and the loop was not left by
`break`. -/
def loopActive (target : Nat) (s : ScrapeState) : Bool :=
  !s.ended && s.reelsCollected < target && s.navigationFailures < 5 &&
    s.consecutiveNavigationFailures < 3

/-- The opportunistic drain of network-captured, not-yet-saved reels
(scrapeReelsFeed lines 291–322): each drained record that has a truthy
`post_id` and is actually saved by storage is pushed and counted while the
target has not been reached.  Failure counters are untouched. -/
def applyDrain (target : Nat) (s : ScrapeState)
    (drainSaves : List (ReelData × Bool)) : ScrapeState :=
  drainSaves.foldl
    (fun s rs =>
      if rs.1.post_id.truthy && rs.2 && s.reelsCollected < target then
        { s with reels := s.reels ++ [rs.1],
                 reelsCollected := s.reelsCollected + 1 }
      else s)
    s

/-- Processing of the resolved record (scrapeReelsFeed lines 324–372):
a record with a truthy `post_id` that is not already in the session's
`reels` array is pushed and saved — a true save resets both failure
counters and counts the reel, a storage duplicate resets
`navigationFailures` only; an already-collected id does nothing; a missing
record increments `navigationFailures`. -/
def processRecord (s : ScrapeState) (resolved : Option ReelData)
    (saveOutcome : Bool) : ScrapeState :=
  match resolved with
  | some reelData =>
    if reelData.post_id.truthy then
      if (s.reels.find? (fun r => r.post_id = reelData.post_id)).isSome then s
      else
        let s2 := { s with reels := s.reels ++ [reelData] }
        if saveOutcome then
          { s2 with reelsCollected := s2.reelsCollected + 1,
                    navigationFailures := 0,
                    consecutiveNavigationFailures := 0 }
        else
          { s2 with navigationFailures := 0 }
    else { s with navigationFailures := s.navigationFailures + 1 }
  | none => { s with navigationFailures := s.navigationFailures + 1 }

/-- The navigation tail of an iteration (scrapeReelsFeed lines 375–407):
skipped once the target is reached; a success clears
`consecutiveNavigationFailures`; a failure increments both counters and,
while `consecutiveNavigationFailures < 3`, waits `backoffDelay` plus
jitter and retries once — a successful retry clears
`consecutiveNavigationFailures` and decrements `navigationFailures`
(`Math.max(0, navigationFailures - 1)`, which is truncated subtraction). -/
def applyNavigation (target : Nat) (s : ScrapeState) (nav : NavOutcome) :
    ScrapeState :=
  if s.reelsCollected < target then
    match nav with
    | .success => { s with consecutiveNavigationFailures := 0 }
    | .failure retryWouldSucceed =>
      let s2 := { s with
        consecutiveNavigationFailures := s.consecutiveNavigationFailures + 1,
        navigationFailures := s.navigationFailures + 1 }
      if s2.consecutiveNavigationFailures < 3 then
        if retryWouldSucceed then
          { s2 with consecutiveNavigationFailures := 0,
                    navigationFailures := s2.navigationFailures - 1 }
        else s2
      else s2
  else s

/-- One iteration of the `while` loop of `scrapeReelsFeed`, given its
environment.  The record is resolved from the network cache when the URL
yields a reel id (cache wins wholesale), else from the DOM; the iteration's
`catch` turns a thrown error into incrementing both counters; losing the
reel page either increments `consecutiveNavigationFailures` (recovery
succeeded, `continue`) or increments `navigationFailures` and breaks. -/
def scrapeStep (target : Nat) (s : ScrapeState) (e : IterEvent) : ScrapeState :=
  if !loopActive target s then s
  else
    match e with
    | .throwsMidIteration =>
      { s with navigationFailures := s.navigationFailures + 1,
               consecutiveNavigationFailures := s.consecutiveNavigationFailures + 1 }
    | .notOnReelPage recoverySucceeds =>
      if recoverySucceeds then
        { s with consecutiveNavigationFailures := s.consecutiveNavigationFailures + 1 }
      else
        { s with navigationFailures := s.navigationFailures + 1, ended := true }
    | .onReel currentReelId networkRecord domRecord drainSaves saveOutcome nav =>
      let resolved :=
        if currentReelId.isSome then resolveReelData networkRecord domRecord
        else domRecord
      applyNavigation target (processRecord (applyDrain target s drainSaves)
        resolved saveOutcome) nav

/-- The loop of `scrapeReelsFeed` over a sequence of iteration
environments, from the initial state. -/
def runScrapeLoop (target : Nat) (events : List IterEvent) : ScrapeState :=
  events.foldl (scrapeStep target) initialState

end InstagramReelsScraper

/-! ### Operation sequences on the collector

Within one session the collector is mutated only through `addReel` and
`clear` (`scrapeReelsFeed` clears it at loop entry; `addReel` is called by
the interception pipeline and by the DOM fallback path). -/

/-- One mutation of the session's `ReelCollector`. -/
inductive CollectorOp where
  | add : Option ReelData → CollectorOp
  | clear : CollectorOp
  deriving Repr, DecidableEq

/-- Is this operation a `clear`? -/
def CollectorOp.isClear : CollectorOp → Bool
  | .clear => true
  | .add _ => false

namespace ReelCollector

/-- Apply one collector operation. -/
def applyOp (c : ReelCollector) : CollectorOp → ReelCollector
  | .add r => c.addReel r
  | .clear => c.clear

/-- Run a sequence of collector operations from a fresh collector. -/
def runOps (ops : List CollectorOp) : ReelCollector :=
  ops.foldl applyOp empty

end ReelCollector

/-- Specification helper: the operations after the last `clear` (the whole
sequence if no `clear` occurs). -/
def opsSinceClear (ops : List CollectorOp) : List CollectorOp :=
  (ops.reverse.takeWhile (fun op => !op.isClear)).reverse

/-- Specification helper: the records of the `add` operations that pass
`addReel`'s validity guard (non-null record with truthy `post_id`), in
order. -/
def addedRecords : List CollectorOp → List ReelData
  | [] => []
  | .add (some r) :: rest =>
    if r.post_id.truthy then r :: addedRecords rest else addedRecords rest
  | _ :: rest => addedRecords rest

/-- Specification helper: keep only the first record carrying each
`post_id` (given the ids already seen), preserving order. -/
def firstPerId (seen : List Json) : List ReelData → List ReelData
  | [] => []
  | r :: rs =>
    if r.post_id ∈ seen then firstPerId seen rs
    else r :: firstPerId (r.post_id :: seen) rs

/-! ### Concrete payloads and records used by individual claims -/

/-- A reel record with the given `post_id`, hashtags and likes count, other
fields as the extractor defaults them. -/
def plainReel (pid : Json) (tags : List String) (likes : Json) : ReelData :=
  { post_id := pid, author_username := Json.null, caption := Json.null,
    hashtags := tags, hashtag_metadata := [], likes_count := likes,
    comments_count := Json.num 0, view_count := Json.num 0,
    media_type := "reel", video_url := Json.null, thumbnail_url := Json.null,
    created_at := Json.null }

/-- Shape (a), v1: a single-item `shortcode_media` payload for id `x`. -/
def payloadShortcodeMedia (x : String) : Json :=
  Json.obj [("data", Json.obj [("shortcode_media",
    Json.obj [("shortcode", Json.str x)])])]

/-- Shape (a), v2: a single-item `xdt_shortcode_media` payload for id `x`. -/
def payloadXdtShortcodeMedia (x : String) : Json :=
  Json.obj [("data", Json.obj [("xdt_shortcode_media",
    Json.obj [("shortcode", Json.str x)])])]

/-- Shape (b): a clips-home feed connection payload with one edge whose
media item has id `x`. -/
def payloadClipsConnection (x : String) : Json :=
  Json.obj [("data", Json.obj [("xdt_api__v1__clips__home__connection_v2",
    Json.obj [("edges", Json.arr [Json.obj [("node",
      Json.obj [("media", Json.obj [("code", Json.str x)])])]])])])]

/-- Shape (c): a bare top-level `items` array holding one item with id `x`
and the clip type discriminator. -/
def payloadBareItems (x : String) : Json :=
  Json.obj [("items", Json.arr [Json.obj [("code", Json.str x),
    ("media_type", Json.num 2)]])]

/-- Shape (d): an unrecognized payload with one item-like object (id `x`
plus the `media_type === 2` video discriminator) nested two levels under
`data`. -/
def payloadDrifted (x : String) : Json :=
  Json.obj [("data", Json.obj [("something", Json.obj [("nested",
    Json.obj [("code", Json.str x), ("media_type", Json.num 2)])])])]

/-- A `shortcode_media` payload for id "X" carrying a negative
`like_count`, as Instagram's endpoint could emit and the extractor passes
through unchecked. -/
def payloadNegativeLikes : Json :=
  Json.obj [("data", Json.obj [("shortcode_media",
    Json.obj [("shortcode", Json.str "X"), ("like_count", Json.num (-5))])])]

/-- The text of a valid single-reel GraphQL body for id "X". -/
def singleReelBody : String :=
  "\x7b\"data\":\x7b\"shortcode_media\":\x7b\"shortcode\":\"X\"\x7d\x7d\x7d"

/-- A GraphQL query URL as captured by the interceptor. -/
def graphqlUrl : String := "https://www.instagram.com/graphql/query"

/-! ## Theorems -/

section Lemmas

/-- Helper: a `lookup` that misses is unaffected by earlier entries. -/
theorem lookup_append_of_none {β : Type} (m1 m2 : List (Json × β)) (k : Json)
    (h : m1.lookup k = none) : (m1 ++ m2).lookup k = m2.lookup k := by
  induction m1 with
  | nil => simp
  | cons kv t ih =>
    simp only [List.lookup, List.cons_append] at h ⊢
    cases hkv : (k == kv.1) with
    | true => simp [hkv] at h
    | false => simp only [hkv] at h ⊢; exact ih h

/-- Helper: a missed `lookup` means no entry carries the key. -/
theorem lookup_none_no_key {β : Type} (m : List (Json × β)) (k : Json)
    (h : m.lookup k = none) : ∀ kv ∈ m, kv.1 ≠ k := by
  induction m with
  | nil => simp
  | cons kv t ih =>
    simp only [List.lookup] at h
    cases hkv : (k == kv.1) with
    | true => simp [hkv] at h
    | false =>
      simp only [hkv] at h
      intro kv2 hmem
      rcases List.mem_cons.mp hmem with h1 | h1
      · subst h1
        intro hk
        rw [hk] at hkv
        simp at hkv
      · exact ih h kv2 h1

end Lemmas

/-- C7.  Backoff monotonicity: the base backoff delay computed before
jitter after `n` consecutive navigation failures (2000 · 2^(n−1) capped at
15000 ms) is non-decreasing in `n` for `n ≥ 1` and never exceeds the
configured 15000 ms maximum. -/
theorem C7_backoff_monotone (n m : Nat) (h1 : 1 ≤ n) (h2 : n ≤ m) :
    InstagramReelsScraper.backoffDelay n ≤ InstagramReelsScraper.backoffDelay m ∧
    InstagramReelsScraper.backoffDelay n ≤ 15000 := by
  unfold InstagramReelsScraper.backoffDelay
  refine ⟨?_, Nat.min_le_right _ _⟩
  exact min_le_min
    (Nat.mul_le_mul_left _ (Nat.pow_le_pow_right (by norm_num) (by omega)))
    (le_refl _)

/-- Witness for C7 at the consecutive-failure counts 1 and 3. -/
theorem C7_backoff_monotone_witness :
    (1 ≤ 1 ∧ 1 ≤ 3) ∧
    (InstagramReelsScraper.backoffDelay 1 ≤ InstagramReelsScraper.backoffDelay 3 ∧
      InstagramReelsScraper.backoffDelay 1 ≤ 15000) :=
  ⟨by decide, C7_backoff_monotone 1 3 (by decide) (by decide)⟩

/-- Helper: `addReelFull` returns JavaScript `undefined` (`none`) on every
path. -/
theorem addReelFull_snd (c : ReelCollector) (r : Option ReelData) :
    (c.addReelFull r).2 = none := by
  unfold ReelCollector.addReelFull
  rcases r with _ | rec
  · rfl
  · by_cases h1 : ¬ rec.post_id.truthy = true
    · simp [h1]
    · by_cases h2 : ReelCollector.mapHas c.collectedReels rec.post_id = true
      · simp [h1, h2]
      · simp [h1, h2]

/-- Helper: an add of a valid, absent record appends to both structures. -/
theorem addReel_eq_append (c : ReelCollector) (r : ReelData)
    (ht : r.post_id.truthy = true)
    (hh : ReelCollector.mapHas c.collectedReels r.post_id = false) :
    c.addReel (some r) =
      { collectedReels := c.collectedReels ++ [(r.post_id, r)],
        networkReels := c.networkReels ++ [r] } := by
  unfold ReelCollector.addReel ReelCollector.addReelFull
  simp [ht, hh]

/-- Helper: an add of an already-present id leaves the collector
untouched (first-write-wins). -/
theorem addReel_eq_self_of_has (c : ReelCollector) (r : ReelData)
    (hh : ReelCollector.mapHas c.collectedReels r.post_id = true) :
    c.addReel (some r) = c := by
  unfold ReelCollector.addReel ReelCollector.addReelFull
  by_cases h1 : ¬ r.post_id.truthy = true
  · simp [h1]
  · simp [h1, hh]

/-- Helper: an add of a falsy argument or a falsy id is a no-op. -/
theorem addReel_eq_self_of_invalid (c : ReelCollector) (r : Option ReelData)
    (hr : r.elim True (fun rec => rec.post_id.truthy = false)) :
    c.addReel r = c := by
  unfold ReelCollector.addReel ReelCollector.addReelFull
  rcases r with _ | rec
  · rfl
  · simp only [Option.elim] at hr
    simp [hr]

/-- C1 counterexample.  The claim states the second `addReel` call returns
`false` ("the operation returns whether the record was newly inserted").
The source's `addReel` has no return value: every path executes a bare
`return;` or falls off the end, so both calls return JavaScript `undefined`
(modelled `none`), never the boolean `false` — exhibited at the concrete
record with id "A". -/
theorem C1_dedup_idempotence_counterexample :
    ((ReelCollector.empty.addReel
        (some (plainReel (Json.str "A") [] (Json.num 0)))).addReelFull
      (some (plainReel (Json.str "A") [] (Json.num 0)))).2 = none ∧
    (none : Option Bool) ≠ some false := by
  exact ⟨addReelFull_snd _ _, by decide⟩

/-- C1 (amended).  Dedup idempotence of the cache contents: for a record
`r` whose `post_id` is a non-empty string `i` not yet cached, after calling
`addReel` twice the cache holds exactly one entry for `i`, equal to the
first `r` inserted, and the second call is a no-op; but `addReel` reports
nothing — its JavaScript return value is `undefined` (modelled `none`) on
every call, not the newly-inserted boolean the claim describes. -/
theorem C1_dedup_idempotence (c : ReelCollector) (r : ReelData) (i : String)
    (hpid : r.post_id = Json.str i) (hne : i ≠ "")
    (habs : c.hasReel (Json.str i) = false) :
    (c.addReel (some r)).getReel (Json.str i) = some r ∧
    (c.addReel (some r)).addReel (some r) = c.addReel (some r) ∧
    ((c.addReel (some r)).collectedReels.filter
        (fun kv => kv.1 = Json.str i)).length = 1 ∧
    ((c.addReel (some r)).addReelFull (some r)).2 = none := by
  have htr : r.post_id.truthy = true := by
    rw [hpid]; simp [Json.truthy, hne]
  have hnone : c.collectedReels.lookup (Json.str i) = none := by
    unfold ReelCollector.hasReel ReelCollector.mapHas at habs
    cases hl : c.collectedReels.lookup (Json.str i) with
    | none => rfl
    | some v => rw [hl] at habs; simp at habs
  have hmapHas : ReelCollector.mapHas c.collectedReels r.post_id = false := by
    unfold ReelCollector.mapHas
    rw [hpid, hnone]
    rfl
  have hadd := addReel_eq_append c r htr hmapHas
  have hlook2 : (c.collectedReels ++ [(r.post_id, r)]).lookup (Json.str i) = some r := by
    rw [lookup_append_of_none _ _ _ hnone, hpid]
    simp [List.lookup]
  refine ⟨?_, ?_, ?_, addReelFull_snd _ _⟩
  · rw [hadd]
    exact hlook2
  · refine addReel_eq_self_of_has _ _ ?_
    rw [hadd]
    unfold ReelCollector.mapHas
    rw [hpid] at hlook2 ⊢
    rw [hlook2]
    rfl
  · rw [hadd]
    have hnil : c.collectedReels.filter (fun kv => kv.1 = Json.str i) = [] := by
      rw [List.filter_eq_nil_iff]
      intro kv hmem
      have := lookup_none_no_key _ _ hnone kv hmem
      simpa using this
    simp [List.filter_append, hnil, hpid]

/-- Witness for C1 at the concrete record with id "A" added to a fresh
collector. -/
theorem C1_dedup_idempotence_witness :
    ((plainReel (Json.str "A") [] (Json.num 0)).post_id = Json.str "A" ∧
      "A" ≠ "" ∧ ReelCollector.empty.hasReel (Json.str "A") = false) ∧
    ((ReelCollector.empty.addReel
        (some (plainReel (Json.str "A") [] (Json.num 0)))).getReel
      (Json.str "A") = some (plainReel (Json.str "A") [] (Json.num 0)) ∧
    (ReelCollector.empty.addReel
        (some (plainReel (Json.str "A") [] (Json.num 0)))).addReel
      (some (plainReel (Json.str "A") [] (Json.num 0))) =
      ReelCollector.empty.addReel
        (some (plainReel (Json.str "A") [] (Json.num 0))) ∧
    ((ReelCollector.empty.addReel
        (some (plainReel (Json.str "A") [] (Json.num 0)))).collectedReels.filter
      (fun kv => kv.1 = Json.str "A")).length = 1 ∧
    ((ReelCollector.empty.addReel
        (some (plainReel (Json.str "A") [] (Json.num 0)))).addReelFull
      (some (plainReel (Json.str "A") [] (Json.num 0)))).2 = none) :=
  ⟨⟨rfl, by decide, rfl⟩,
    C1_dedup_idempotence ReelCollector.empty
      (plainReel (Json.str "A") [] (Json.num 0)) "A" rfl (by decide) rfl⟩

/-- C5.  Navigation strategy order and exception swallowing: with a known
current item id, `navigateToNextReel` attempts the five strategies in the
fixed source order, stopping at the first that succeeds (the attempted list
is exactly the order-prefix through the first success, or all five); an
outcome that throws behaves exactly like one that fails; and the call
returns false precisely when no strategy succeeds (all five failed). -/
theorem C5_navigation_strategy_order (currentReelId : Option String)
    (id : String)
    (outcome : ReelNavigator.Strategy → ReelNavigator.StrategyOutcome)
    (hid : currentReelId = some id) :
    ((ReelNavigator.navigateToNextReel currentReelId outcome).1 = true ↔
      ∃ s ∈ ReelNavigator.strategies, outcome s = .succeeds) ∧
    ((ReelNavigator.navigateToNextReel currentReelId outcome).1 = false ↔
      ∀ s ∈ ReelNavigator.strategies, outcome s ≠ .succeeds) ∧
    ((ReelNavigator.navigateToNextReel currentReelId outcome).2 =
      ReelNavigator.strategies.take
        (ReelNavigator.strategies.findIdx (fun s => outcome s == .succeeds) + 1)) ∧
    (ReelNavigator.navigateToNextReel currentReelId
        (fun s => if outcome s = .throws then .fails else outcome s) =
      ReelNavigator.navigateToNextReel currentReelId outcome) := by
  subst hid
  simp only [ReelNavigator.navigateToNextReel]
  revert outcome
  set_option maxRecDepth 4000 in decide

/-- Witness for C5: current id "A", every strategy fails. -/
theorem C5_navigation_strategy_order_witness :
    ((some "A" : Option String) = some "A") ∧
    (((ReelNavigator.navigateToNextReel (some "A") (fun _ => .fails)).1 = true ↔
      ∃ s ∈ ReelNavigator.strategies, (fun _ => ReelNavigator.StrategyOutcome.fails) s = .succeeds) ∧
    ((ReelNavigator.navigateToNextReel (some "A") (fun _ => .fails)).1 = false ↔
      ∀ s ∈ ReelNavigator.strategies, (fun _ => ReelNavigator.StrategyOutcome.fails) s ≠ .succeeds) ∧
    ((ReelNavigator.navigateToNextReel (some "A") (fun _ => .fails)).2 =
      ReelNavigator.strategies.take
        (ReelNavigator.strategies.findIdx
          (fun s => (fun _ => ReelNavigator.StrategyOutcome.fails) s == .succeeds) + 1)) ∧
    (ReelNavigator.navigateToNextReel (some "A")
        (fun s => if (fun _ => ReelNavigator.StrategyOutcome.fails) s = .throws then .fails
          else (fun _ => ReelNavigator.StrategyOutcome.fails) s) =
      ReelNavigator.navigateToNextReel (some "A") (fun _ => .fails))) :=
  ⟨rfl, C5_navigation_strategy_order (some "A") "A" (fun _ => .fails) rfl⟩

/-- Helper: if no poll ever observes a changed id and the video heuristic
never fires, the polling loop falls through and returns false. -/
theorem verifyFrom_eq_false (env : ReelNavigator.PollEnv) (cur : String)
    (maxWaitTime : Nat)
    (hid : ∀ k, ReelNavigator.idChanged env cur k = false)
    (hvid : ∀ k, ReelNavigator.videoAccepted env maxWaitTime k = false) :
    ∀ fuel w, ReelNavigator.verifyFrom env cur maxWaitTime fuel w = false := by
  intro fuel
  induction fuel with
  | zero => intro w; rfl
  | succ f ih =>
    intro w
    unfold ReelNavigator.verifyFrom
    by_cases hw : w < maxWaitTime
    · simp [hw, hid, hvid, ih]
    · simp [hw]

/-- Helper: if some poll that the loop reaches (the `j+1`-st poll counted
from `waitedTime = w`, which happens as long as `w + 300·j` is below the
bound and fuel remains) observes a changed id or fires the video heuristic,
the loop returns true. -/
theorem verifyFrom_eq_true (env : ReelNavigator.PollEnv) (cur : String)
    (maxWaitTime : Nat) :
    ∀ (j fuel w : Nat), w + 300 * j < maxWaitTime → j < fuel →
      (ReelNavigator.idChanged env cur (w / 300 + j + 1) ||
        ReelNavigator.videoAccepted env maxWaitTime (w / 300 + j + 1)) = true →
      ReelNavigator.verifyFrom env cur maxWaitTime fuel w = true := by
  intro j
  induction j with
  | zero =>
    intro fuel w hreach hfuel hexit
    match fuel, hfuel with
    | f + 1, _ =>
      unfold ReelNavigator.verifyFrom
      have hw : w < maxWaitTime := by omega
      have hk : (w + 300) / 300 = w / 300 + 1 := Nat.add_div_right w (by norm_num)
      simp only [Nat.add_zero] at hexit
      by_cases hx : ReelNavigator.idChanged env cur (w / 300 + 1) = true
      · simp [hw, hk, hx]
      · simp only [hx, Bool.false_or] at hexit
        simp [hw, hk, hx, hexit]
  | succ j ih =>
    intro fuel w hreach hfuel hexit
    match fuel, hfuel with
    | f + 1, _ =>
      unfold ReelNavigator.verifyFrom
      have hw : w < maxWaitTime := by omega
      have hk : (w + 300) / 300 = w / 300 + 1 := Nat.add_div_right w (by norm_num)
      simp only [hw, if_true, hk]
      by_cases h1 : ReelNavigator.idChanged env cur (w / 300 + 1) = true
      · simp [h1]
      · by_cases h2 : ReelNavigator.videoAccepted env maxWaitTime (w / 300 + 1) = true
        · simp [h1, h2]
        · simp only [h1, h2, if_false]
          refine ih f (w + 300) (by omega) (by omega) ?_
          have : (w + 300) / 300 + j + 1 = w / 300 + (j + 1) + 1 := by omega
          rw [this]
          exact hexit

/-- C6.  Navigation verification bound and heuristic acceptance:
`verifyNavigation` polls every 300 ms up to the `maxWaitTime` bound (8000 ms
by default).  (1) If no poll observes a changed, non-null id and the video
heuristic (a loaded video element at a poll past 2000 ms and past 70 % of
the bound) never fires, it returns false — the strategy is judged failed.
(2) If some poll within the bound (poll `k` happens while `300·(k−1)` is
below the bound) observes an id change to a different non-null id, it
returns true.  (3) If the id never needs to change but the video heuristic
fires at some reached poll, it still returns true. -/
theorem C6_verification_bound (env : ReelNavigator.PollEnv)
    (currentReelId : String) (maxWaitTime : Nat) :
    ((∀ k, ReelNavigator.idChanged env currentReelId k = false) →
      (∀ k, ReelNavigator.videoAccepted env maxWaitTime k = false) →
      ReelNavigator.verifyNavigation env currentReelId maxWaitTime = false) ∧
    ((∃ k, 1 ≤ k ∧ 300 * (k - 1) < maxWaitTime ∧
        ReelNavigator.idChanged env currentReelId k = true) →
      ReelNavigator.verifyNavigation env currentReelId maxWaitTime = true) ∧
    ((∃ k, 1 ≤ k ∧ 300 * (k - 1) < maxWaitTime ∧
        ReelNavigator.videoAccepted env maxWaitTime k = true) →
      ReelNavigator.verifyNavigation env currentReelId maxWaitTime = true) := by
  refine ⟨?_, ?_, ?_⟩
  · intro hid hvid
    exact verifyFrom_eq_false env currentReelId maxWaitTime hid hvid _ _
  · rintro ⟨k, hk1, hkb, hkc⟩
    unfold ReelNavigator.verifyNavigation
    refine verifyFrom_eq_true env currentReelId maxWaitTime (k - 1) _ 0
      (by omega) (by omega) ?_
    have : 0 / 300 + (k - 1) + 1 = k := by omega
    rw [this, hkc]
    simp
  · rintro ⟨k, hk1, hkb, hkc⟩
    unfold ReelNavigator.verifyNavigation
    refine verifyFrom_eq_true env currentReelId maxWaitTime (k - 1) _ 0
      (by omega) (by omega) ?_
    have : 0 / 300 + (k - 1) + 1 = k := by omega
    rw [this, hkc]
    simp

/-- Witness for C6 at the default 8000 ms bound: an environment whose URL
reads "B" from the first poll on (current id "A") verifies successfully. -/
theorem C6_verification_bound_witness :
    (∃ k, 1 ≤ k ∧ 300 * (k - 1) < 8000 ∧
      ReelNavigator.idChanged ⟨fun _ => some "B", fun _ => false⟩ "A" k = true) ∧
    ReelNavigator.verifyNavigation ⟨fun _ => some "B", fun _ => false⟩ "A" 8000 = true :=
  ⟨⟨1, by omega, by omega, by decide⟩,
    (C6_verification_bound ⟨fun _ => some "B", fun _ => false⟩ "A" 8000).2.1
      ⟨1, by omega, by omega, by decide⟩⟩

/-- C8 counterexample.  The claim says `navigationFailures` (the spec's
`cumulative_failures`) never decreases or resets within a session.  Run two
iterations from the initial state: in the first, extraction yields nothing
(+1) and the advance call exhausts all strategies with a failed retry (+1),
leaving the counter at 2; in the second, a fresh record "B" is resolved and
saved, which executes `navigationFailures = 0` — the counter drops from 2
to 0 before the session ends. -/
theorem C8_cumulative_failures_counterexample :
    (InstagramReelsScraper.runScrapeLoop 10
        [.onReel (some "A") none none [] false (.failure false)]).navigationFailures = 2 ∧
    (InstagramReelsScraper.runScrapeLoop 10
        [.onReel (some "A") none none [] false (.failure false),
         .onReel (some "B") (some (plainReel (Json.str "B") [] (Json.num 0)))
           none [] true .success]).navigationFailures = 0 := by
  exact ⟨by decide, by decide⟩

/-- C8 (amended).  The cumulative navigation failure counter
(`navigationFailures`) increments when an advance call exhausts all
strategies and the post-backoff retry does not succeed, but it is not
monotone within a session: a successful post-backoff retry decrements it by
one (`Math.max(0, navigationFailures - 1)`), and resolving a record that
storage saves (or reports as duplicate) resets it to 0. -/
theorem C8_cumulative_failures_update (target : Nat)
    (s : InstagramReelsScraper.ScrapeState) (r : ReelData) :
    (s.reelsCollected < target →
      (InstagramReelsScraper.applyNavigation target s (.failure false)).navigationFailures =
        s.navigationFailures + 1) ∧
    (s.reelsCollected < target → s.consecutiveNavigationFailures + 1 < 3 →
      (InstagramReelsScraper.applyNavigation target s (.failure true)).navigationFailures =
        s.navigationFailures) ∧
    (r.post_id.truthy = true →
      (s.reels.find? (fun x => x.post_id = r.post_id)).isSome = false →
      ∀ saveOutcome,
        (InstagramReelsScraper.processRecord s (some r) saveOutcome).navigationFailures = 0) := by
  refine ⟨?_, ?_, ?_⟩
  · intro hc
    unfold InstagramReelsScraper.applyNavigation
    by_cases h3 : s.consecutiveNavigationFailures + 1 < 3 <;> simp [hc, h3]
  · intro hc h3
    unfold InstagramReelsScraper.applyNavigation
    simp [hc, h3]
  · intro htr hdup saveOutcome
    unfold InstagramReelsScraper.processRecord
    cases saveOutcome <;> simp [htr, hdup]

/-- Witness for C8 from the state with one accumulated failure and an empty
session list, record "B". -/
theorem C8_cumulative_failures_update_witness :
    (InstagramReelsScraper.applyNavigation 10 ⟨[], 0, 1, 0, false⟩
      (.failure false)).navigationFailures = 1 + 1 ∧
    (InstagramReelsScraper.applyNavigation 10 ⟨[], 0, 1, 0, false⟩
      (.failure true)).navigationFailures = 1 ∧
    (InstagramReelsScraper.processRecord ⟨[], 0, 1, 0, false⟩
      (some (plainReel (Json.str "B") [] (Json.num 0))) true).navigationFailures = 0 :=
  ⟨(C8_cumulative_failures_update 10 ⟨[], 0, 1, 0, false⟩
      (plainReel (Json.str "B") [] (Json.num 0))).1 (by decide),
   (C8_cumulative_failures_update 10 ⟨[], 0, 1, 0, false⟩
      (plainReel (Json.str "B") [] (Json.num 0))).2.1 (by decide) (by decide),
   (C8_cumulative_failures_update 10 ⟨[], 0, 1, 0, false⟩
      (plainReel (Json.str "B") [] (Json.num 0))).2.2 rfl rfl true⟩

/-- Helper: membership in the hashtags accumulated over one merge source. -/
theorem mem_mergeStepSource_fold (src : HashtagExtractor.TagAcc) (x : String) :
    ∀ (tags : List String) (acc : HashtagExtractor.TagAcc),
      (x ∈ (tags.foldl (HashtagExtractor.mergeStepTag src) acc).hashtags ↔
        x ∈ acc.hashtags ∨ ∃ t ∈ tags, HashtagExtractor.normalizeTag t = x) := by
  intro tags
  induction tags with
  | nil => intro acc; simp
  | cons t ts ih =>
    intro acc
    rw [List.foldl_cons, ih]
    unfold HashtagExtractor.mergeStepTag
    by_cases hmem : HashtagExtractor.normalizeTag t ∈ acc.hashtags
    · simp only [hmem, if_true]
      constructor
      · rintro (h | ⟨u, hu, hnu⟩)
        · exact Or.inl h
        · exact Or.inr ⟨u, List.mem_cons_of_mem _ hu, hnu⟩
      · rintro (h | ⟨u, hu, hnu⟩)
        · exact Or.inl h
        · rcases List.mem_cons.mp hu with rfl | hu2
          · exact Or.inl (hnu ▸ hmem)
          · exact Or.inr ⟨u, hu2, hnu⟩
    · simp only [hmem, if_false]
      constructor
      · rintro (h | ⟨u, hu, hnu⟩)
        · rcases List.mem_append.mp h with h2 | h2
          · exact Or.inl h2
          · exact Or.inr ⟨t, List.mem_cons_self _ _, (List.mem_singleton.mp h2).symm⟩
        · exact Or.inr ⟨u, List.mem_cons_of_mem _ hu, hnu⟩
      · rintro (h | ⟨u, hu, hnu⟩)
        · exact Or.inl (List.mem_append_left _ h)
        · rcases List.mem_cons.mp hu with rfl | hu2
          · exact Or.inl (List.mem_append_right _ (List.mem_singleton.mpr hnu.symm))
          · exact Or.inr ⟨u, hu2, hnu⟩

/-- Helper: membership in the hashtags of a full `merge`. -/
theorem mem_merge_fold (x : String) :
    ∀ (sources : List HashtagExtractor.TagAcc) (acc : HashtagExtractor.TagAcc),
      (x ∈ (sources.foldl HashtagExtractor.mergeStepSource acc).hashtags ↔
        x ∈ acc.hashtags ∨
          ∃ src ∈ sources, ∃ t ∈ src.hashtags, HashtagExtractor.normalizeTag t = x) := by
  intro sources
  induction sources with
  | nil => intro acc; simp
  | cons src rest ih =>
    intro acc
    rw [List.foldl_cons, ih]
    unfold HashtagExtractor.mergeStepSource
    rw [mem_mergeStepSource_fold]
    constructor
    · rintro ((h | ⟨t, ht, hnt⟩) | ⟨s2, hs2, t, ht, hnt⟩)
      · exact Or.inl h
      · exact Or.inr ⟨src, List.mem_cons_self _ _, t, ht, hnt⟩
      · exact Or.inr ⟨s2, List.mem_cons_of_mem _ hs2, t, ht, hnt⟩
    · rintro (h | ⟨s2, hs2, t, ht, hnt⟩)
      · exact Or.inl (Or.inl h)
      · rcases List.mem_cons.mp hs2 with rfl | hs2
        · exact Or.inl (Or.inr ⟨t, ht, hnt⟩)
        · exact Or.inr ⟨s2, hs2, t, ht, hnt⟩

/-- C9 counterexample.  When both an intercepted and a rendered record
exist for the same id, the code does not merge them: the resolution in
`scrapeReelsFeed` uses the network-cached record wholesale and discards the
rendered one.  With intercepted tags `{a,b}` and rendered tags `{b,c}` the
resolved record's tag set is `{a,b}` — tag `c` from the rendered record is
lost, so the result is not the union `{a,b,c}` the claim requires. -/
theorem C9_merge_precedence_counterexample :
    InstagramReelsScraper.resolveReelData
        (some (plainReel (Json.str "X") ["a", "b"] (Json.num 120)))
        (some (plainReel (Json.str "X") ["b", "c"] Json.null)) =
      some (plainReel (Json.str "X") ["a", "b"] (Json.num 120)) ∧
    "c" ∈ (plainReel (Json.str "X") ["b", "c"] Json.null).hashtags ∧
    "c" ∉ (plainReel (Json.str "X") ["a", "b"] (Json.num 120)).hashtags := by
  exact ⟨rfl, by decide, by decide⟩

/-- C9 (amended).  Merge precedence: when both an intercepted and a
rendered record exist for the same id, the intercepted record wins
wholesale — every field (scalar fields and the tag set alike) comes from
the intercepted record, so intercepted `likes=120` with rendered `likes`
absent yields 120; the union of tag sets happens only inside
`HashtagExtractor.merge`, which unions the (normalized) tag lists of its
sources in first-seen order — on tag sources `{a,b}` and `{b,c}` it yields
exactly `{a,b,c}`. -/
theorem C9_merge_precedence :
    (∀ (n : ReelData) (d : Option ReelData),
      InstagramReelsScraper.resolveReelData (some n) d = some n) ∧
    (∀ (d : Option ReelData),
      (InstagramReelsScraper.resolveReelData
          (some (plainReel (Json.str "X") ["a", "b"] (Json.num 120))) d).map
        (fun r => r.likes_count) = some (Json.num 120)) ∧
    (∀ (s1 s2 : HashtagExtractor.TagAcc) (x : String),
      x ∈ (HashtagExtractor.merge [s1, s2]).hashtags ↔
        ∃ t, (t ∈ s1.hashtags ∨ t ∈ s2.hashtags) ∧
          HashtagExtractor.normalizeTag t = x) ∧
    (HashtagExtractor.merge
        [⟨["a", "b"], []⟩, ⟨["b", "c"], []⟩]).hashtags = ["a", "b", "c"] := by
  refine ⟨fun n d => rfl, fun d => rfl, ?_, by decide⟩
  intro s1 s2 x
  unfold HashtagExtractor.merge
  rw [mem_merge_fold]
  simp only [HashtagExtractor.TagAcc.hashtags]
  constructor
  · rintro (h | ⟨src, hsrc, t, ht, hnt⟩)
    · simp at h
    · rcases List.mem_cons.mp hsrc with rfl | hsrc
      · exact ⟨t, Or.inl ht, hnt⟩
      · rcases List.mem_cons.mp hsrc with rfl | hsrc
        · exact ⟨t, Or.inr ht, hnt⟩
        · simp at hsrc
  · rintro ⟨t, (ht | ht), hnt⟩
    · exact Or.inr ⟨s1, by simp, t, ht, hnt⟩
    · exact Or.inr ⟨s2, by simp, t, ht, hnt⟩

/-- Helper: `addReel` preserves the map/list pairing invariant. -/
theorem addReel_pairing (c : ReelCollector) (r : Option ReelData)
    (h : c.collectedReels = c.networkReels.map (fun x => (x.post_id, x))) :
    (c.addReel r).collectedReels =
      (c.addReel r).networkReels.map (fun x => (x.post_id, x)) := by
  rcases r with _ | rec
  · exact h
  · by_cases ht : rec.post_id.truthy = true
    · by_cases hh : ReelCollector.mapHas c.collectedReels rec.post_id = true
      · rw [addReel_eq_self_of_has c rec hh]; exact h
      · rw [addReel_eq_append c rec ht (by simpa using hh)]
        simp [h]
    · rw [addReel_eq_self_of_invalid c (some rec) (by simpa using ht)]
      exact h

/-- Helper: running any operations preserves the map/list pairing. -/
theorem foldl_applyOp_pairing :
    ∀ (ops : List CollectorOp) (c : ReelCollector),
      c.collectedReels = c.networkReels.map (fun x => (x.post_id, x)) →
      (ops.foldl ReelCollector.applyOp c).collectedReels =
        (ops.foldl ReelCollector.applyOp c).networkReels.map
          (fun x => (x.post_id, x)) := by
  intro ops
  induction ops with
  | nil => intro c h; exact h
  | cons op rest ih =>
    intro c h
    rw [List.foldl_cons]
    refine ih _ ?_
    cases op with
    | add r => exact addReel_pairing c r h
    | clear => rfl

/-- Helper: under the pairing invariant, the map has a key exactly when
some list entry carries it. -/
theorem mapHas_iff_mem (network : List ReelData) (k : Json) :
    ReelCollector.mapHas (network.map (fun x => (x.post_id, x))) k = true ↔
      k ∈ network.map (fun x => x.post_id) := by
  induction network with
  | nil => simp [ReelCollector.mapHas]
  | cons r rest ih =>
    unfold ReelCollector.mapHas at ih ⊢
    simp only [List.map_cons, List.lookup, List.mem_cons]
    cases hbeq : (k == r.post_id) with
    | true => simp [beq_iff_eq.mp hbeq]
    | false =>
      have : ¬ k = r.post_id := by
        intro hk
        rw [hk] at hbeq
        simp at hbeq
      simp [this, ih]

/-- Helper: `firstPerId` only cares about the seen set's membership. -/
theorem firstPerId_congr :
    ∀ (l : List ReelData) (s1 s2 : List Json), (∀ x, x ∈ s1 ↔ x ∈ s2) →
      firstPerId s1 l = firstPerId s2 l := by
  intro l
  induction l with
  | nil => intro s1 s2 _; rfl
  | cons r rs ih =>
    intro s1 s2 hs
    unfold firstPerId
    by_cases hm : r.post_id ∈ s1
    · simp [hm, (hs _).mp hm, ih s1 s2 hs]
    · have hm2 : r.post_id ∉ s2 := fun h => hm ((hs _).mpr h)
      simp only [hm, hm2, if_neg, if_false]
      rw [ih (r.post_id :: s1) (r.post_id :: s2)
        (by intro x; simp [hs x])]

/-- Helper: `firstPerId` on an already-seen head skips it. -/
theorem firstPerId_cons_mem (s : List Json) (r : ReelData) (l : List ReelData)
    (h : r.post_id ∈ s) : firstPerId s (r :: l) = firstPerId s l := by
  simp [firstPerId, h]

/-- Helper: `firstPerId` on an unseen head keeps it. -/
theorem firstPerId_cons_not_mem (s : List Json) (r : ReelData)
    (l : List ReelData) (h : r.post_id ∉ s) :
    firstPerId s (r :: l) = r :: firstPerId (r.post_id :: s) l := by
  simp [firstPerId, h]

/-- Helper: over clear-free operations, the arrival list grows by exactly
the first-insertion records of the valid adds. -/
theorem network_foldl_adds :
    ∀ (ops : List CollectorOp) (c : ReelCollector),
      (∀ op ∈ ops, op.isClear = false) →
      c.collectedReels = c.networkReels.map (fun x => (x.post_id, x)) →
      (ops.foldl ReelCollector.applyOp c).networkReels =
        c.networkReels ++
          firstPerId (c.networkReels.map (fun x => x.post_id)) (addedRecords ops) := by
  intro ops
  induction ops with
  | nil => intro c _ _; simp [addedRecords, firstPerId]
  | cons op rest ih =>
    intro c hcl hinv
    have hclr : ∀ op2 ∈ rest, op2.isClear = false :=
      fun op2 h2 => hcl op2 (List.mem_cons_of_mem _ h2)
    cases op with
    | clear => exact absurd (hcl _ (List.mem_cons_self _ _)) (by simp [CollectorOp.isClear])
    | add r =>
      rw [List.foldl_cons]
      have hop : ∀ r2, ReelCollector.applyOp c (.add r2) = c.addReel r2 :=
        fun r2 => rfl
      rcases r with _ | rec
      · have h0 : ReelCollector.applyOp c (.add none) = c := rfl
        rw [h0, ih c hclr hinv]
        rfl
      · by_cases ht : rec.post_id.truthy = true
        · by_cases hh : ReelCollector.mapHas c.collectedReels rec.post_id = true
          · rw [hop, addReel_eq_self_of_has c rec hh, ih c hclr hinv]
            have hmem : rec.post_id ∈ c.networkReels.map (fun x => x.post_id) := by
              rw [← mapHas_iff_mem, ← hinv]
              exact hh
            have hadded : addedRecords (.add (some rec) :: rest) =
                rec :: addedRecords rest := by simp [addedRecords, ht]
            rw [hadded, firstPerId_cons_mem _ _ _ hmem]
          · have hhf : ReelCollector.mapHas c.collectedReels rec.post_id = false := by
              simpa using hh
            have happ := addReel_eq_append c rec ht hhf
            have hinv2 : (c.addReel (some rec)).collectedReels =
                (c.addReel (some rec)).networkReels.map (fun x => (x.post_id, x)) :=
              addReel_pairing c (some rec) hinv
            rw [hop, ih _ hclr hinv2, happ]
            have hnmem : rec.post_id ∉ c.networkReels.map (fun x => x.post_id) := by
              intro hmem
              rw [← mapHas_iff_mem, ← hinv] at hmem
              rw [hhf] at hmem
              cases hmem
            have hadded : addedRecords (.add (some rec) :: rest) =
                rec :: addedRecords rest := by simp [addedRecords, ht]
            rw [hadded, firstPerId_cons_not_mem _ _ _ hnmem]
            simp only [List.map_append, List.map_cons, List.map_nil]
            rw [List.append_assoc, List.singleton_append]
            congr 2
            refine firstPerId_congr (addedRecords rest) _ _ ?_
            intro x
            simp only [List.mem_append, List.mem_cons, List.not_mem_nil, or_false]
            tauto
        · have htf : rec.post_id.truthy = false := by simpa using ht
          rw [hop, addReel_eq_self_of_invalid c (some rec) (by simpa using htf),
            ih c hclr hinv]
          have : addedRecords (.add (some rec) :: rest) = addedRecords rest := by
            simp [addedRecords, htf]
          rw [this]

/-- Helper: a trailing `clear` erases the suffix. -/
theorem opsSinceClear_append_clear (ops : List CollectorOp) :
    opsSinceClear (ops ++ [.clear]) = [] := by
  unfold opsSinceClear
  simp [CollectorOp.isClear]

/-- Helper: a trailing `add` extends the suffix. -/
theorem opsSinceClear_append_add (ops : List CollectorOp) (r : Option ReelData) :
    opsSinceClear (ops ++ [.add r]) = opsSinceClear ops ++ [.add r] := by
  unfold opsSinceClear
  simp [CollectorOp.isClear]

/-- Helper: the since-last-clear suffix contains no `clear`. -/
theorem opsSinceClear_no_clear (ops : List CollectorOp) :
    ∀ op ∈ opsSinceClear ops, op.isClear = false := by
  intro op hmem
  unfold opsSinceClear at hmem
  have := List.mem_takeWhile_imp (List.mem_reverse.mp hmem)
  simpa using this

/-- Helper: the collector state only depends on the operations after the
last `clear`. -/
theorem runOps_sinceClear (ops : List CollectorOp) :
    ReelCollector.runOps ops = ReelCollector.runOps (opsSinceClear ops) := by
  induction ops using List.reverseRecOn with
  | nil => rfl
  | append_singleton ops op ih =>
    cases op with
    | clear =>
      rw [opsSinceClear_append_clear]
      unfold ReelCollector.runOps
      rw [List.foldl_append]
      rfl
    | add r =>
      rw [opsSinceClear_append_add]
      unfold ReelCollector.runOps
      rw [List.foldl_append, List.foldl_append]
      unfold ReelCollector.runOps at ih
      rw [ih]

/-- C10.  Collector map/list consistency: after any sequence of `addReel`
and `clear` operations, `networkReels` is exactly the sequence of first
records per `post_id` among the valid adds since the last `clear` (in
first-insertion order, entries never overwritten); the `collectedReels` map
is the same sequence keyed by `post_id` (one entry per key, same order);
and `size()` equals the length of `networkReels`. -/
theorem C10_collector_consistency (ops : List CollectorOp) :
    (ReelCollector.runOps ops).networkReels =
      firstPerId [] (addedRecords (opsSinceClear ops)) ∧
    (ReelCollector.runOps ops).collectedReels =
      (ReelCollector.runOps ops).networkReels.map (fun x => (x.post_id, x)) ∧
    (ReelCollector.runOps ops).size =
      (ReelCollector.runOps ops).networkReels.length := by
  have hpair : (ReelCollector.runOps ops).collectedReels =
      (ReelCollector.runOps ops).networkReels.map (fun x => (x.post_id, x)) :=
    foldl_applyOp_pairing ops ReelCollector.empty rfl
  refine ⟨?_, hpair, ?_⟩
  · rw [runOps_sinceClear]
    unfold ReelCollector.runOps
    have := network_foldl_adds (opsSinceClear ops) ReelCollector.empty
      (opsSinceClear_no_clear ops) rfl
    rw [this]
    rfl
  · unfold ReelCollector.size
    rw [hpair]
    simp

/-- Helper: truthiness of a non-empty string id. -/
theorem str_truthy (x : String) (hx : x ≠ "") : (Json.str x).truthy = true := by
  simp [Json.truthy, hx]

/-- Helper: an item none of whose three hashtag sources is an array
extracts an empty tag set without throwing. -/
theorem extractFromGraphQL_no_tags (items : Json)
    (h1 : HashtagExtractor.asArray ((items.get "edge_media_to_hashtag").get "edges") = [])
    (h2 : HashtagExtractor.asArray (items.get "hashtags") = [])
    (h3 : HashtagExtractor.asArray ((items.get "caption").get "hashtags") = []) :
    HashtagExtractor.extractFromGraphQL items =
      Except.ok { hashtags := [], metadata := [] } := by
  unfold HashtagExtractor.extractFromGraphQL
  rw [h1, h2, h3]
  rfl

/-- Helper: shape (a) v1 — a `shortcode_media` payload yields the record
with its id. -/
theorem process_shortcode_media (x : String) (hx : x ≠ "") :
    ((GraphQLHandler.processGraphQLResponse ReelCollector.empty
        (payloadShortcodeMedia x)).getReel (Json.str x)).map
      (fun r => r.post_id) = some (Json.str x) := by
  have hx2 := str_truthy x hx
  simp [GraphQLHandler.processGraphQLResponse, payloadShortcodeMedia,
    Json.get, Json.truthy, Json.or, List.lookup,
    GraphQLExtractor.extractReelFromGraphQL,
    GraphQLExtractor.extractReelDataFromItem,
    extractFromGraphQL_no_tags, HashtagExtractor.asArray,
    ReelCollector.addReel, ReelCollector.addReelFull, ReelCollector.mapHas,
    ReelCollector.empty, ReelCollector.getReel, hx2, hx]

/-- Helper: shape (a) v2 — an `xdt_shortcode_media` payload yields the
record with its id. -/
theorem process_xdt_shortcode_media (x : String) (hx : x ≠ "") :
    ((GraphQLHandler.processGraphQLResponse ReelCollector.empty
        (payloadXdtShortcodeMedia x)).getReel (Json.str x)).map
      (fun r => r.post_id) = some (Json.str x) := by
  have hx2 := str_truthy x hx
  simp [GraphQLHandler.processGraphQLResponse, payloadXdtShortcodeMedia,
    Json.get, Json.truthy, Json.or, List.lookup,
    GraphQLExtractor.extractReelFromGraphQL,
    GraphQLExtractor.extractReelDataFromItem,
    extractFromGraphQL_no_tags, HashtagExtractor.asArray,
    ReelCollector.addReel, ReelCollector.addReelFull, ReelCollector.mapHas,
    ReelCollector.empty, ReelCollector.getReel, hx2, hx]

/-- Helper: shape (b) — a clips feed connection payload yields the record
with its id. -/
theorem process_clips_connection (x : String) (hx : x ≠ "") :
    ((GraphQLHandler.processGraphQLResponse ReelCollector.empty
        (payloadClipsConnection x)).getReel (Json.str x)).map
      (fun r => r.post_id) = some (Json.str x) := by
  have hx2 := str_truthy x hx
  simp [GraphQLHandler.processGraphQLResponse, payloadClipsConnection,
    Json.get, Json.truthy, Json.or, List.lookup,
    GraphQLHandler.collectItem,
    GraphQLExtractor.extractReelFromGraphQLItem,
    GraphQLExtractor.extractReelDataFromItem,
    extractFromGraphQL_no_tags, HashtagExtractor.asArray,
    ReelCollector.addReel, ReelCollector.addReelFull, ReelCollector.mapHas,
    ReelCollector.empty, ReelCollector.getReel, hx2, hx]

/-- Helper: shape (d) — an unrecognized payload with one nested item-like
object carrying the video discriminator is recovered by the deep search and
yields the record with its id. -/
theorem process_drifted (x : String) (hx : x ≠ "") :
    ((GraphQLHandler.processGraphQLResponse ReelCollector.empty
        (payloadDrifted x)).getReel (Json.str x)).map
      (fun r => r.post_id) = some (Json.str x) := by
  have hx2 := str_truthy x hx
  simp [GraphQLHandler.processGraphQLResponse, payloadDrifted,
    Json.get, Json.truthy, Json.or, List.lookup,
    GraphQLHandler.findMediaObjects, GraphQLHandler.isMediaObject,
    GraphQLHandler.childValues, GraphQLHandler.collectItem,
    GraphQLExtractor.extractReelFromGraphQLItem,
    GraphQLExtractor.extractReelDataFromItem,
    extractFromGraphQL_no_tags, HashtagExtractor.asArray,
    ReelCollector.addReel, ReelCollector.addReelFull, ReelCollector.mapHas,
    ReelCollector.empty, ReelCollector.getReel, hx2, hx]

/-- Helper: shape (c) — a bare top-level `items` array is rejected by the
`!parsedData.data` gate of `processGraphQLResponse` for every collector
state and every id, even with the video discriminator present. -/
theorem process_bare_items (c : ReelCollector) (x : String) :
    GraphQLHandler.processGraphQLResponse c (payloadBareItems x) = c := by
  simp [GraphQLHandler.processGraphQLResponse, payloadBareItems,
    Json.get, Json.truthy, List.lookup]

/-- C3 counterexample.  Feeding the response processing pipeline a bare
top-level `items` array holding one item with identifier "ABC" (and the
video-type discriminator) yields no record at all: `processGraphQLResponse`
returns unless `parsedData.data` is truthy, and a bare `items` payload has
no `data` field — the collector stays empty, so no record with post_id
"ABC" is produced.  (The item-level extractor does have an `items`-array
matcher, but the pipeline never routes such payloads to it.) -/
theorem C3_shape_tolerance_counterexample :
    (GraphQLHandler.processGraphQLResponse ReelCollector.empty
        (payloadBareItems "ABC")).getReel (Json.str "ABC") = none ∧
    (GraphQLHandler.processGraphQLResponse ReelCollector.empty
        (payloadBareItems "ABC")).size = 0 := by
  exact ⟨by decide, by decide⟩

/-- C3 (amended).  Shape-parser tolerance: for any non-empty identifier
`x`, the single-item shapes (`shortcode_media` and `xdt_shortcode_media`),
the feed-connection list shape (clips connection edges), and an
unrecognized shape with one nested item-like object carrying a video-type
discriminator all yield a record whose `post_id` equals `x`; a bare
top-level `items` array, however, is rejected by the response processor's
`!parsedData.data` gate and yields no record for any collector state. -/
theorem C3_shape_tolerance (x : String) (hx : x ≠ "") :
    (((GraphQLHandler.processGraphQLResponse ReelCollector.empty
        (payloadShortcodeMedia x)).getReel (Json.str x)).map
      (fun r => r.post_id) = some (Json.str x)) ∧
    (((GraphQLHandler.processGraphQLResponse ReelCollector.empty
        (payloadXdtShortcodeMedia x)).getReel (Json.str x)).map
      (fun r => r.post_id) = some (Json.str x)) ∧
    (((GraphQLHandler.processGraphQLResponse ReelCollector.empty
        (payloadClipsConnection x)).getReel (Json.str x)).map
      (fun r => r.post_id) = some (Json.str x)) ∧
    (((GraphQLHandler.processGraphQLResponse ReelCollector.empty
        (payloadDrifted x)).getReel (Json.str x)).map
      (fun r => r.post_id) = some (Json.str x)) ∧
    (∀ c : ReelCollector,
      GraphQLHandler.processGraphQLResponse c (payloadBareItems x) = c) :=
  ⟨process_shortcode_media x hx, process_xdt_shortcode_media x hx,
    process_clips_connection x hx, process_drifted x hx,
    fun c => process_bare_items c x⟩

/-- Witness for C3 at the identifier "ABC". -/
theorem C3_shape_tolerance_witness :
    ("ABC" ≠ "") ∧
    ((((GraphQLHandler.processGraphQLResponse ReelCollector.empty
        (payloadShortcodeMedia "ABC")).getReel (Json.str "ABC")).map
      (fun r => r.post_id) = some (Json.str "ABC")) ∧
    (((GraphQLHandler.processGraphQLResponse ReelCollector.empty
        (payloadXdtShortcodeMedia "ABC")).getReel (Json.str "ABC")).map
      (fun r => r.post_id) = some (Json.str "ABC")) ∧
    (((GraphQLHandler.processGraphQLResponse ReelCollector.empty
        (payloadClipsConnection "ABC")).getReel (Json.str "ABC")).map
      (fun r => r.post_id) = some (Json.str "ABC")) ∧
    (((GraphQLHandler.processGraphQLResponse ReelCollector.empty
        (payloadDrifted "ABC")).getReel (Json.str "ABC")).map
      (fun r => r.post_id) = some (Json.str "ABC")) ∧
    (∀ c : ReelCollector,
      GraphQLHandler.processGraphQLResponse c (payloadBareItems "ABC") = c)) :=
  ⟨by decide, C3_shape_tolerance "ABC" (by decide)⟩

/-- Helper: JavaScript `a || b` falls through a falsy left operand. -/
theorem json_or_of_falsy (a b : Json) (h : a.truthy = false) : a.or b = b := by
  simp [Json.or, h]

/-- Helper: whatever the extractor returns has a truthy `post_id` (the
`return reelData.post_id ? reelData : null` guard). -/
theorem extract_post_id_truthy (items : Json) (r : ReelData)
    (h : GraphQLExtractor.extractReelDataFromItem items = some r) :
    r.post_id.truthy = true := by
  unfold GraphQLExtractor.extractReelDataFromItem at h
  rcases hE : HashtagExtractor.extractFromGraphQL items with e | tagResult <;>
    rw [hE] at h <;> dsimp only at h
  · cases h
  · split at h
    · rename_i hcond
      cases h
      exact hcond
    · cases h

/-- Helper: an item whose `shortcode` and `code` are both falsy (it lacks
an id) is discarded by the parser. -/
theorem parser_discards_idless (items : Json)
    (h1 : (items.get "shortcode").truthy = false)
    (h2 : (items.get "code").truthy = false) :
    GraphQLExtractor.extractReelDataFromItem items = none := by
  unfold GraphQLExtractor.extractReelDataFromItem
  rcases hE : HashtagExtractor.extractFromGraphQL items with e | tagResult
  · rfl
  · have hor : ((items.get "shortcode").or ((items.get "code").or Json.null)) =
        Json.null := by
      rw [json_or_of_falsy _ _ h1, json_or_of_falsy _ _ h2]
    dsimp only
    rw [hor]
    rfl

/-- Helper: `addReel` preserves "every cached record has a truthy id". -/
theorem addReel_all_truthy (c : ReelCollector) (r : Option ReelData)
    (h : ∀ r2 ∈ c.networkReels, r2.post_id.truthy = true) :
    ∀ r2 ∈ (c.addReel r).networkReels, r2.post_id.truthy = true := by
  rcases r with _ | rec
  · exact h
  · by_cases ht : rec.post_id.truthy = true
    · by_cases hh : ReelCollector.mapHas c.collectedReels rec.post_id = true
      · rw [addReel_eq_self_of_has c rec hh]; exact h
      · rw [addReel_eq_append c rec ht (by simpa using hh)]
        intro r2 hmem
        rcases List.mem_append.mp hmem with h2 | h2
        · exact h r2 h2
        · rw [List.mem_singleton.mp h2]
          exact ht
    · rw [addReel_eq_self_of_invalid c (some rec) (by simpa using ht)]
      exact h

/-- Helper: every record in any reachable collector state has a truthy
`post_id`. -/
theorem runOps_all_truthy (ops : List CollectorOp) :
    ∀ r ∈ (ReelCollector.runOps ops).networkReels, r.post_id.truthy = true := by
  suffices h : ∀ (ops : List CollectorOp) (c : ReelCollector),
      (∀ r ∈ c.networkReels, r.post_id.truthy = true) →
      ∀ r ∈ (ops.foldl ReelCollector.applyOp c).networkReels,
        r.post_id.truthy = true by
    exact h ops ReelCollector.empty (by intro r hr; cases hr)
  intro ops
  induction ops with
  | nil => intro c h; exact h
  | cons op rest ih =>
    intro c h
    rw [List.foldl_cons]
    refine ih _ ?_
    cases op with
    | add r => exact addReel_all_truthy c r h
    | clear => intro r hr; cases hr

/-- C2 counterexample.  The "counts are non-negative integers" half of the
validity invariant is not enforced anywhere: a `shortcode_media` payload
carrying `like_count: -5` passes the extractor (which copies counts through
unvalidated) and the cache's add guard (which checks only `post_id`), so
the cache ends up holding a record with a negative likes count. -/
theorem C2_validity_gate_counterexample :
    ((GraphQLHandler.processGraphQLResponse ReelCollector.empty
        payloadNegativeLikes).getReel (Json.str "X")).map
      (fun r => r.likes_count) = some (Json.num (-5)) ∧
    ¬ ((0 : Int) ≤ -5) := by
  exact ⟨by decide, by decide⟩

/-- C2 (amended).  Validity gate, id half: an item whose `shortcode` and
`code` are both falsy is discarded by the parser; every record the parser
emits has a truthy `post_id` (in particular neither null nor the empty
string); the cache's add operation discards a null record or one with a
falsy `post_id`; hence every record held in the cache after any operation
sequence has a truthy (non-null, non-empty) id.  Nor is such a record ever
passed to storage: both `savePost` call sites sit inside a truthy-`post_id`
guard, so a resolved record with a falsy id takes the extraction-failure
branch (counter increment only, the same state whatever storage would have
answered) and a drained entry with a falsy id is skipped (the same state
whatever its save flag).  The counts fields, however, are not validated
anywhere — a record with negative counts is cached unchanged (see the
counterexample). -/
theorem C2_validity_gate :
    (∀ items : Json, (items.get "shortcode").truthy = false →
      (items.get "code").truthy = false →
      GraphQLExtractor.extractReelDataFromItem items = none) ∧
    (∀ (items : Json) (r : ReelData),
      GraphQLExtractor.extractReelDataFromItem items = some r →
      r.post_id.truthy = true) ∧
    (∀ c : ReelCollector, c.addReel none = c) ∧
    (∀ (c : ReelCollector) (r : ReelData), r.post_id.truthy = false →
      c.addReel (some r) = c) ∧
    (∀ ops : List CollectorOp,
      ∀ r ∈ (ReelCollector.runOps ops).networkReels,
        r.post_id.truthy = true) ∧
    (∀ (s : InstagramReelsScraper.ScrapeState) (r : ReelData)
      (saveOutcome : Bool), r.post_id.truthy = false →
      InstagramReelsScraper.processRecord s (some r) saveOutcome =
        { s with navigationFailures := s.navigationFailures + 1 }) ∧
    (∀ (target : Nat) (s : InstagramReelsScraper.ScrapeState) (r : ReelData)
      (saved : Bool), r.post_id.truthy = false →
      InstagramReelsScraper.applyDrain target s [(r, saved)] = s) := by
  refine ⟨parser_discards_idless, extract_post_id_truthy, fun c => rfl, ?_,
    runOps_all_truthy, ?_, ?_⟩
  · intro c r hf
    exact addReel_eq_self_of_invalid c (some r) (by simpa using hf)
  · intro s r saveOutcome hf
    unfold InstagramReelsScraper.processRecord
    simp [hf]
  · intro target s r saved hf
    unfold InstagramReelsScraper.applyDrain
    simp [hf]

/-- Witness for C2: an id-less item is discarded; adds of null-id records
are no-ops; the one-add operation sequence leaves only truthy-id records
cached; a null-id resolved record only bumps the failure counter (storage
untouched) and a null-id drained entry is skipped. -/
theorem C2_validity_gate_witness :
    ((Json.obj []).get "shortcode").truthy = false ∧
    ((Json.obj []).get "code").truthy = false ∧
    GraphQLExtractor.extractReelDataFromItem (Json.obj []) = none ∧
    ((plainReel Json.null [] (Json.num 0)).post_id.truthy = false ∧
      ReelCollector.empty.addReel (some (plainReel Json.null [] (Json.num 0))) =
        ReelCollector.empty) ∧
    ((plainReel (Json.str "A") [] (Json.num 0)) ∈
      (ReelCollector.runOps
        [.add (some (plainReel (Json.str "A") [] (Json.num 0)))]).networkReels ∧
    (plainReel (Json.str "A") [] (Json.num 0)).post_id.truthy = true) ∧
    InstagramReelsScraper.processRecord ⟨[], 0, 1, 0, false⟩
      (some (plainReel Json.null [] (Json.num 0))) true =
      (⟨[], 0, 2, 0, false⟩ : InstagramReelsScraper.ScrapeState) ∧
    InstagramReelsScraper.applyDrain 10 ⟨[], 0, 1, 0, false⟩
      [((plainReel Json.null [] (Json.num 0)), true)] =
      (⟨[], 0, 1, 0, false⟩ : InstagramReelsScraper.ScrapeState) := by
  refine ⟨by decide, by decide,
    C2_validity_gate.1 (Json.obj []) (by decide) (by decide),
    ⟨by decide, C2_validity_gate.2.2.2.1 ReelCollector.empty
      (plainReel Json.null [] (Json.num 0)) (by decide)⟩, ⟨by decide, ?_⟩, ?_, ?_⟩
  · exact C2_validity_gate.2.2.2.2.1
      [.add (some (plainReel (Json.str "A") [] (Json.num 0)))]
      (plainReel (Json.str "A") [] (Json.num 0)) (by decide)
  · rw [C2_validity_gate.2.2.2.2.2.1 ⟨[], 0, 1, 0, false⟩
      (plainReel Json.null [] (Json.num 0)) true (by decide)]
  · exact C2_validity_gate.2.2.2.2.2.2 10 ⟨[], 0, 1, 0, false⟩
      (plainReel Json.null [] (Json.num 0)) true (by decide)

/-- Helper: `dropWhile` is idempotent. -/
theorem dropWhile_self_idem (p : Char → Bool) (l : List Char) :
    (l.dropWhile p).dropWhile p = l.dropWhile p := by
  induction l with
  | nil => rfl
  | cons c rest ih =>
    by_cases hc : p c = true
    · simp [List.dropWhile, hc, ih]
    · simp [List.dropWhile, hc]

/-- Helper: a list is a prefix of itself followed by anything. -/
theorem isPrefixOf_append_self (l m : List Char) : l.isPrefixOf (l ++ m) = true := by
  induction l with
  | nil => simp [List.isPrefixOf]
  | cons c rest ih => simp [List.isPrefixOf, ih]

/-- Helper: stripping the marker from a marker-carrying body leaves the
remainder with its leading `\s` whitespace removed. -/
theorem stripHijack_marker_append (b : String) :
    stripHijack (hijackMarker ++ b) =
      String.mk (b.data.dropWhile isJsWhitespace) := by
  have hdata : (hijackMarker ++ b).data = hijackMarker.data ++ b.data := rfl
  have hsw : jsStartsWith (hijackMarker ++ b) hijackMarker = true := by
    unfold jsStartsWith
    rw [hdata]
    exact isPrefixOf_append_self _ _
  unfold stripHijack
  rw [hsw]
  simp only [if_true, hdata]
  have h9 : (hijackMarker.data ++ b.data).drop 9 = b.data := by
    have : (9 : Nat) = hijackMarker.data.length := by decide
    rw [this, List.drop_left]
  rw [h9]

/-- Helper: a body not starting with the marker is left unchanged. -/
theorem stripHijack_of_no_marker (b : String)
    (h : jsStartsWith b hijackMarker = false) : stripHijack b = b := by
  unfold stripHijack
  rw [h]
  rfl

/-- Helper: the captured-body processing depends on the body only through
the parse of its stripped form. -/
theorem sendDataToNode_congr (c : ReelCollector) (url method s1 s2 : String)
    (h : parseJson (stripHijack s1) = parseJson (stripHijack s2)) :
    NetworkInterceptor.sendDataToNode c url method s1 =
      NetworkInterceptor.sendDataToNode c url method s2 := by
  unfold NetworkInterceptor.sendDataToNode
  rw [h]

/-- C4 counterexample.  Two bodies refute the unrestricted claim.
(1) A body whose remainder itself begins with the marker: the regex strips
the marker only once, so `"for (;;);for (;;);<json>"` fails to parse and
yields zero records, while the same body without the marker
(`"for (;;);<json>"`) is stripped once more and yields one record.
(2) A body whose remainder begins with a non-breaking space (U+00A0): the
stripping regex's `\s*` eats it, so the marker-carrying body parses and
yields one record, while the body without the marker fails `JSON.parse`
(NBSP is not JSON whitespace) and yields zero.  In both cases processing
the marker-carrying body differs from processing the same body without the
marker. -/
theorem C4_hijack_stripping_counterexample :
    (NetworkInterceptor.sendDataToNode ReelCollector.empty graphqlUrl "POST"
      (hijackMarker ++ (hijackMarker ++ singleReelBody))).size = 0 ∧
    (NetworkInterceptor.sendDataToNode ReelCollector.empty graphqlUrl "POST"
      (hijackMarker ++ singleReelBody)).size = 1 ∧
    (NetworkInterceptor.sendDataToNode ReelCollector.empty graphqlUrl "POST"
      ("\u00A0" ++ singleReelBody)).size = 0 ∧
    (NetworkInterceptor.sendDataToNode ReelCollector.empty graphqlUrl "POST"
      (hijackMarker ++ ("\u00A0" ++ singleReelBody))).size = 1 := by
  exact ⟨by decide, by decide, by decide, by decide⟩

/-- C4 (amended).  Anti-hijacking marker stripping and silent parse
failure: for a body whose remainder `b` neither begins with the marker
itself nor with whitespace outside JSON's whitespace set (leading `\s`
whitespace of `b`, which the stripping regex eats, must coincide with what
`JSON.parse` would skip anyway), processing the marker-carrying body
`"for (;;);" ++ b` produces exactly the same result as processing `b`; and
every body whose stripped form fails to parse yields zero records and
raises no error (the model is a total function returning the collector
unchanged, mirroring the source's `catch` that swallows the
`JSON.parse` exception). -/
theorem C4_hijack_stripping (c : ReelCollector) (url method b : String)
    (h1 : jsStartsWith b hijackMarker = false)
    (h2 : b.data.dropWhile isJsonWhitespace = b.data.dropWhile isJsWhitespace) :
    (NetworkInterceptor.sendDataToNode c url method (hijackMarker ++ b) =
      NetworkInterceptor.sendDataToNode c url method b) ∧
    (∀ (c2 : ReelCollector) (s : String),
      parseJson (stripHijack s) = none →
      NetworkInterceptor.sendDataToNode c2 url method s = c2) := by
  constructor
  · refine sendDataToNode_congr c url method _ _ ?_
    rw [stripHijack_marker_append, stripHijack_of_no_marker b h1]
    unfold parseJson
    have hd : (String.mk (b.data.dropWhile isJsWhitespace)).data =
        b.data.dropWhile isJsWhitespace := rfl
    rw [hd, ← h2, dropWhile_self_idem]
  · intro c2 s h
    unfold NetworkInterceptor.sendDataToNode
    rw [h]
    by_cases hg : (strIncludes url "/graphql/query" && decide (method = "POST")) = true
    · simp [hg]
    · simp [hg]

/-- Witness for C4 at the concrete single-reel body (no marker, no exotic
leading whitespace) and a non-JSON body. -/
theorem C4_hijack_stripping_witness :
    (jsStartsWith singleReelBody hijackMarker = false ∧
      singleReelBody.data.dropWhile isJsonWhitespace =
        singleReelBody.data.dropWhile isJsWhitespace) ∧
    (NetworkInterceptor.sendDataToNode ReelCollector.empty graphqlUrl "POST"
        (hijackMarker ++ singleReelBody) =
      NetworkInterceptor.sendDataToNode ReelCollector.empty graphqlUrl "POST"
        singleReelBody) ∧
    (parseJson (stripHijack "notjson") = none ∧
      NetworkInterceptor.sendDataToNode ReelCollector.empty graphqlUrl "POST"
        "notjson" = ReelCollector.empty) :=
  ⟨⟨by decide, by decide⟩,
    (C4_hijack_stripping ReelCollector.empty graphqlUrl "POST" singleReelBody
      (by decide) (by decide)).1,
    ⟨by decide,
      (C4_hijack_stripping ReelCollector.empty graphqlUrl "POST" singleReelBody
        (by decide) (by decide)).2 ReelCollector.empty "notjson" (by decide)⟩⟩
